import Mathlib

/-!
Verification development for the Vibe Engine core of the Stouse repository
(`src/vibehouse/core/vibe_engine/`): the natural-language requirement parser
(`vibe_parser.py`), the floor-plan generator (`plan_generator.py`), the
structural/MEP analyzer (`engineering.py`), the cost estimator
(`cost_estimator.py`) and the pipeline orchestrator (`service.py`).

Modelling conventions:
* Python floats are modelled as exact rationals (`ℚ`); `round(x, n)` is
  round-half-to-even at `n` decimal digits, `int(x)` and `math.floor` /
  `math.ceil` are exact truncation / floor / ceiling.
* `math.sqrt` is kept abstract: every definition that uses it takes a
  function `sqrtF : ℚ → ℚ` as a parameter, so theorems quantify over it.
* Python regular-expression search (`re.search`, leftmost match, greedy
  backtracking, `re.IGNORECASE` realised by lowering the text) is modelled
  by a small fuelled backtracking engine over `List Char`.
* pydantic validation (`Field(..., ge=..., le=...)` bounds) is modelled as
  an explicit boolean check at construction; a Python exception is `none`.
* `uuid.uuid4()` option ids are modelled by an `ids : Nat → String`
  parameter; database persistence in `service.py` is elided, keeping the
  pure payloads.
-/

set_option maxHeartbeats 4000000
set_option maxRecDepth 20000

namespace VibeSpec

/-! ## Python numeric primitives -/

/-- Python `round` to an integer: round half to even (banker's rounding). -/
def halfEven (q : ℚ) : ℤ :=
  let f := ⌊q⌋
  let r := q - (f : ℚ)
  if r < 1/2 then f
  else if (1/2 : ℚ) < r then f + 1
  else if f % 2 = 0 then f else f + 1

/-- Python `round(x, 2)` (result still a number with two decimals). -/
def pyRound2 (q : ℚ) : ℚ := (halfEven (q * 100) : ℚ) / 100

/-- Python `round(x, 1)`. -/
def pyRound1 (q : ℚ) : ℚ := (halfEven (q * 10) : ℚ) / 10

/-- Python `round(x, 0)` (result a float in Python, hence `ℚ` here). -/
def pyRound0 (q : ℚ) : ℚ := (halfEven q : ℚ)

/-- Python `int(x)` on a float: truncation toward zero (`Int.tdiv` is
C-style division truncating toward zero). -/
def ratTrunc (q : ℚ) : ℤ := q.num.tdiv (q.den : ℤ)

/-! ## Python string primitives -/

/-- Python `str.lower()` on ASCII text, as a character list. -/
def lowerL (s : String) : List Char := s.toList.map Char.toLower

/-- Python `str.lower()` returning a `String`. -/
def lowerS (s : String) : String := String.mk (lowerL s)

/-- Does `pat` occur as a prefix of `s`? -/
def startsWithL : List Char → List Char → Bool
  | [], _ => true
  | _ :: _, [] => false
  | a :: as, b :: bs => a == b && startsWithL as bs

/-- Does `pat` occur as a contiguous sublist of `s`?  (Python `pat in s`;
an empty pattern is contained in everything, as in Python.) -/
def containsL (pat : List Char) : List Char → Bool
  | [] => startsWithL pat []
  | c :: cs => startsWithL pat (c :: cs) || containsL pat cs

/-- Python `needle in hay` for a lowered haystack character list. -/
def substrIn (needle : String) (hay : List Char) : Bool :=
  containsL needle.toList hay

/-- Python `needle in hay` on strings. -/
def substrS (needle hay : String) : Bool :=
  containsL needle.toList hay.toList

/-- Python `\s` whitespace class (ASCII part). -/
def pySpace (c : Char) : Bool :=
  c == ' ' || c == '\t' || c == '\n' || c == '\r' || c == '\x0b' || c == '\x0c'

/-- Python word character (`\w`, ASCII part), used for `\b` boundaries. -/
def pyWordChar (c : Char) : Bool :=
  c.isAlpha || c.isDigit || c == '_'

/-- Numeric value of a digit string (the string is known to be digits). -/
def digitsVal (cs : List Char) : ℤ :=
  (cs.foldl (fun a c => a * 10 + (c.toNat - '0'.toNat)) 0 : ℕ)

/-- Python `int(s)` on a comma-stripped group: succeeds iff `s` is a
non-empty digit string (the groups feeding it contain only digits and
commas, with commas removed beforehand). -/
def pyIntOfDigits (cs : List Char) : Option ℤ :=
  if cs ≠ [] ∧ cs.all Char.isDigit then some (digitsVal cs) else none

/-- Python `float(s)` on a comma-stripped group of digits and dots:
succeeds iff there is at most one dot and at least one digit
(`float("1.")` and `float(".5")` succeed, `float(".")`, `float("")`,
`float("1.2.3")` raise `ValueError`). -/
def pyFloatOfDigitsDots (cs : List Char) : Option ℚ :=
  if (cs.count '.') ≤ 1 ∧ cs.any Char.isDigit ∧ cs.all (fun c => c.isDigit || c == '.') then
    let intPart := cs.takeWhile (fun c => c ≠ '.')
    let fracPart := (cs.dropWhile (fun c => c ≠ '.')).drop 1
    some ((digitsVal intPart : ℚ) + (digitsVal fracPart : ℚ) / (10 ^ fracPart.length : ℕ))
  else none

/-- Remove commas (Python `s.replace(",", "")`). -/
def stripCommas (cs : List Char) : List Char := cs.filter (fun c => c ≠ ',')

/-- Python `str.title()` on lowercase ASCII input: uppercase every letter
that follows a non-letter, lowercase the rest.  `prev` is whether the
previous character was a letter. -/
def pyTitleAux : Bool → List Char → List Char
  | _, [] => []
  | prev, c :: cs =>
      (if c.isAlpha ∧ ¬prev then c.toUpper else c) :: pyTitleAux c.isAlpha cs

/-- Python `s.title()` (inputs here are lowercase ASCII catalog entries). -/
def pyTitle (s : String) : String := String.mk (pyTitleAux false s.toList)

/-! ## A small Python-style regular-expression engine

Patterns are an AST; `matchR` enumerates, in Python's backtracking
priority order (greedy `*`/`?`, left alternative first), all ways a
pattern can match a prefix of the input, together with the captured
groups.  `reSearch` scans left to right and returns the captures of the
first (leftmost, highest-priority) match, exactly like `re.search`.
Recursion is fuelled; the fuel chosen in `reSearch` is generous for the
patterns of `vibe_parser.py` (star bodies all consume at least one
character). -/

inductive RE where
  | eps : RE
  | chr (c : Char) : RE
  | cls (p : Char → Bool) : RE
  | seq (a b : RE) : RE
  | alt (a b : RE) : RE
  | star (a : RE) : RE
  | opt (a : RE) : RE
  | grp (a : RE) : RE

namespace RE

/-- Structural size, used only to compute a generous fuel. -/
def sz : RE → Nat
  | eps => 1
  | chr _ => 1
  | cls _ => 1
  | seq a b => sz a + sz b + 1
  | alt a b => sz a + sz b + 1
  | star a => sz a + 1
  | opt a => sz a + 1
  | grp a => sz a + 1

/-- Literal string pattern. -/
def lit (s : String) : RE :=
  (s.toList.map chr).foldr seq eps

/-- `a+` (one or more, greedy). -/
def plus (a : RE) : RE := seq a (star a)

/-- Left-nested alternation of a non-empty list (first alternative has
priority, as in Python). -/
def altL : List RE → RE
  | [] => eps
  | [a] => a
  | a :: b :: rest => alt a (altL (b :: rest))

end RE

/-- All matches of `r` against a prefix of `s`, in backtracking priority
order; each result is the remaining suffix paired with the captured
groups (in order of group completion; the patterns used here have no
nested groups, so this is Python's left-to-right group order). -/
def matchR : Nat → RE → List Char → List (List Char × List (List Char))
  | 0, _, _ => []
  | _ + 1, RE.eps, s => [(s, [])]
  | _ + 1, RE.chr _, [] => []
  | _ + 1, RE.chr c, x :: xs => if x == c then [(xs, [])] else []
  | _ + 1, RE.cls _, [] => []
  | _ + 1, RE.cls p, x :: xs => if p x then [(xs, [])] else []
  | fuel + 1, RE.seq a b, s =>
      (matchR fuel a s).flatMap (fun r1 =>
        (matchR fuel b r1.1).map (fun r2 => (r2.1, r1.2 ++ r2.2)))
  | fuel + 1, RE.alt a b, s => matchR fuel a s ++ matchR fuel b s
  | fuel + 1, RE.opt a, s => matchR fuel a s ++ [(s, [])]
  | fuel + 1, RE.star a, s =>
      ((matchR fuel a s).flatMap (fun r1 =>
        if r1.1.length < s.length then
          (matchR fuel (RE.star a) r1.1).map (fun r2 => (r2.1, r1.2 ++ r2.2))
        else [])) ++ [(s, [])]
  | fuel + 1, RE.grp a, s =>
      (matchR fuel a s).map (fun r1 =>
        (r1.1, r1.2 ++ [s.take (s.length - r1.1.length)]))

/-- Try to match at the current position, else advance one character:
`re.search` semantics (leftmost match wins; at a given position the
backtracking order decides). -/
def reSearchAux (fuel : Nat) (r : RE) : List Char → Option (List (List Char))
  | [] =>
      match matchR fuel r [] with
      | res :: _ => some res.2
      | [] => none
  | c :: cs =>
      match matchR fuel r (c :: cs) with
      | res :: _ => some res.2
      | [] => reSearchAux fuel r cs

/-- Python `re.search(r, s)`, returning the captured groups of the first
match (or `none`).  The text is already lowered, realising
`re.IGNORECASE` for the ASCII patterns of `vibe_parser.py`. -/
def reSearch (r : RE) (s : List Char) : Option (List (List Char)) :=
  reSearchAux ((s.length + 3) * (r.sz + 3)) r s

/-- Does the pattern match anywhere? (`re.search(...)` truthiness). -/
def reTest (r : RE) (s : List Char) : Bool := (reSearch r s).isSome

end VibeSpec

namespace VibeSpec

/-! ## `vibe_parser.py` — keyword maps -/

/-- `_STYLE_KEYWORDS`, in declaration (= Python dict insertion) order. -/
def style_keywords : List (String × String) :=
  [("modern", "modern"), ("contemporary", "contemporary"),
   ("farmhouse", "farmhouse"), ("farm house", "farmhouse"),
   ("craftsman", "craftsman"), ("colonial", "colonial"), ("ranch", "ranch"),
   ("mid-century", "contemporary"), ("mid century", "contemporary"),
   ("minimalist", "modern"), ("traditional", "colonial"),
   ("rustic", "farmhouse"), ("industrial", "modern"),
   ("mediterranean", "contemporary"), ("tudor", "colonial"),
   ("victorian", "colonial"), ("cape cod", "colonial")]

/-- `_WORD_TO_NUM`, in declaration order. -/
def word_to_num : List (String × ℤ) :=
  [("one", 1), ("two", 2), ("three", 3), ("four", 4), ("five", 5),
   ("six", 6), ("seven", 7), ("eight", 8), ("nine", 9), ("ten", 10)]

/-- `_SPECIAL_FEATURES`, in declaration order. -/
def special_features : List String :=
  ["home office", "office", "wine cellar", "theater", "media room", "gym",
   "workshop", "mudroom", "mud room", "pantry", "walk-in closet",
   "laundry room", "bonus room", "playroom", "library", "sunroom",
   "sun room", "sauna", "pool", "hot tub", "ev charging", "smart home",
   "solar", "accessibility", "ada", "guest suite", "in-law suite",
   "mother-in-law"]

/-! ## `vibe_parser.py` — regular-expression patterns -/

/-- `\d`. -/
def digitC : RE := RE.cls Char.isDigit

/-- `\s`. -/
def spaceC : RE := RE.cls pySpace

/-- `[-\s]`. -/
def dashSpaceC : RE := RE.cls (fun c => c == '-' || pySpace c)

/-- `[\d,]`. -/
def digitCommaC : RE := RE.cls (fun c => c.isDigit || c == ',')

/-- `[\d,.]`. -/
def digitCommaDotC : RE := RE.cls (fun c => c.isDigit || c == ',' || c == '.')

/-- `[\d.]`. -/
def digitDotC : RE := RE.cls (fun c => c.isDigit || c == '.')

/-- `(\d+)\s*[-\s]?\s*{keyword}` — the digit form of
`_extract_number_before`. -/
def numBeforePat (kw : RE) : RE :=
  RE.seq (RE.grp (RE.plus digitC))
    (RE.seq (RE.star spaceC)
      (RE.seq (RE.opt dashSpaceC) (RE.seq (RE.star spaceC) kw)))

/-- `(one|two|...|ten)\s+{keyword}` — the word form of
`_extract_number_before` (`'|'.join(_WORD_TO_NUM.keys())`). -/
def wordBeforePat (kw : RE) : RE :=
  RE.seq (RE.grp (RE.altL (word_to_num.map (fun p => RE.lit p.1))))
    (RE.seq (RE.plus spaceC) kw)

/-- `bed(?:room)?s?`. -/
def bedKw : RE :=
  RE.seq (RE.lit "bed") (RE.seq (RE.opt (RE.lit "room")) (RE.opt (RE.chr 's')))

/-- `bath(?:room)?s?`. -/
def bathKw : RE :=
  RE.seq (RE.lit "bath") (RE.seq (RE.opt (RE.lit "room")) (RE.opt (RE.chr 's')))

/-- `stor(?:y|ies)`. -/
def storKw : RE :=
  RE.seq (RE.lit "stor") (RE.alt (RE.chr 'y') (RE.lit "ies"))

/-- `(one|two|three|single|double|triple|\d)\s*[-\s]?stor(?:y|ied|ies)`. -/
def storeyPat : RE :=
  RE.seq
    (RE.grp (RE.altL [RE.lit "one", RE.lit "two", RE.lit "three",
      RE.lit "single", RE.lit "double", RE.lit "triple", digitC]))
    (RE.seq (RE.star spaceC)
      (RE.seq (RE.opt dashSpaceC)
        (RE.seq (RE.lit "stor")
          (RE.altL [RE.chr 'y', RE.lit "ied", RE.lit "ies"]))))

/-- `sq\.?\s*ft|square\s*feet|sqft|sf` (first sqft unit alternation). -/
def sqftUnit1 : RE :=
  RE.altL
    [RE.seq (RE.lit "sq") (RE.seq (RE.opt (RE.chr '.')) (RE.seq (RE.star spaceC) (RE.lit "ft"))),
     RE.seq (RE.lit "square") (RE.seq (RE.star spaceC) (RE.lit "feet")),
     RE.lit "sqft", RE.lit "sf"]

/-- `(\d[\d,]*)\s*(?:sq\.?\s*ft|square\s*feet|sqft|sf)`. -/
def sqftPat1 : RE :=
  RE.seq (RE.grp (RE.seq digitC (RE.star digitCommaC)))
    (RE.seq (RE.star spaceC) sqftUnit1)

/-- `(\d[\d,]*)\s*(?:square\s*foot)`. -/
def sqftPat2 : RE :=
  RE.seq (RE.grp (RE.seq digitC (RE.star digitCommaC)))
    (RE.seq (RE.star spaceC)
      (RE.seq (RE.lit "square") (RE.seq (RE.star spaceC) (RE.lit "foot"))))

/-- `\$?([\d,.]+)\s*k?\s*[-–to]+\s*\$?([\d,.]+)\s*k` (budget range form). -/
def budgetPat1 : RE :=
  RE.seq (RE.opt (RE.chr '$'))
    (RE.seq (RE.grp (RE.plus digitCommaDotC))
      (RE.seq (RE.star spaceC)
        (RE.seq (RE.opt (RE.chr 'k'))
          (RE.seq (RE.star spaceC)
            (RE.seq (RE.plus (RE.cls (fun c => c == '-' || c == '–' || c == 't' || c == 'o')))
              (RE.seq (RE.star spaceC)
                (RE.seq (RE.opt (RE.chr '$'))
                  (RE.seq (RE.grp (RE.plus digitCommaDotC))
                    (RE.seq (RE.star spaceC) (RE.chr 'k'))))))))))

/-- `\$?([\d,]+)\s*(?:to|-|–)\s*\$?([\d,]+)` (dollar range form). -/
def budgetPat2 : RE :=
  RE.seq (RE.opt (RE.chr '$'))
    (RE.seq (RE.grp (RE.plus digitCommaC))
      (RE.seq (RE.star spaceC)
        (RE.seq (RE.altL [RE.lit "to", RE.chr '-', RE.chr '–'])
          (RE.seq (RE.star spaceC)
            (RE.seq (RE.opt (RE.chr '$')) (RE.grp (RE.plus digitCommaC)))))))

/-- `budget\s*(?:of|around|about|is|:)?\s*\$?([\d,]+)\s*k?` (single budget
figure). -/
def budgetPat3 : RE :=
  RE.seq (RE.lit "budget")
    (RE.seq (RE.star spaceC)
      (RE.seq (RE.opt (RE.altL [RE.lit "of", RE.lit "around", RE.lit "about",
          RE.lit "is", RE.chr ':']))
        (RE.seq (RE.star spaceC)
          (RE.seq (RE.opt (RE.chr '$'))
            (RE.seq (RE.grp (RE.plus digitCommaC))
              (RE.seq (RE.star spaceC) (RE.opt (RE.chr 'k'))))))))

/-- `half\s*bath`. -/
def halfBathPat : RE := RE.seq (RE.lit "half") (RE.seq (RE.star spaceC) (RE.lit "bath"))

/-- `([\d.]+)\s*[-\s]?acre`. -/
def acrePat : RE :=
  RE.seq (RE.grp (RE.plus digitDotC))
    (RE.seq (RE.star spaceC) (RE.seq (RE.opt dashSpaceC) (RE.lit "acre")))

/-- `half\s*[-\s]?acre`. -/
def halfAcrePat : RE :=
  RE.seq (RE.lit "half")
    (RE.seq (RE.star spaceC) (RE.seq (RE.opt dashSpaceC) (RE.lit "acre")))

/-- `quarter\s*[-\s]?acre`. -/
def quarterAcrePat : RE :=
  RE.seq (RE.lit "quarter")
    (RE.seq (RE.star spaceC) (RE.seq (RE.opt dashSpaceC) (RE.lit "acre")))

/-- `([\d,]+)\s*(?:sq\.?\s*ft|sqft|sf)\s*lot`. -/
def lotSqftPat : RE :=
  RE.seq (RE.grp (RE.plus digitCommaC))
    (RE.seq (RE.star spaceC)
      (RE.seq (RE.altL
          [RE.seq (RE.lit "sq") (RE.seq (RE.opt (RE.chr '.')) (RE.seq (RE.star spaceC) (RE.lit "ft"))),
           RE.lit "sqft", RE.lit "sf"])
        (RE.seq (RE.star spaceC) (RE.lit "lot"))))

end VibeSpec

namespace VibeSpec

/-! ## `vibe_parser.py` — helpers -/

/-- `_extract_number_before(text, keyword)`: digit form first, then word
form; `text` is the lowered character list. -/
def extract_number_before (t : List Char) (kw : RE) : Option ℤ :=
  match reSearch (numBeforePat kw) t with
  | some (g :: _) => some (digitsVal g)
  | _ =>
    match reSearch (wordBeforePat kw) t with
    | some (g :: _) => (word_to_num.lookup (String.mk g)).getD 0
    | _ => none

/-- `_extract_sqft(text)`: first pattern, then the `square foot` pattern;
`int(group.replace(",", ""))` never fails because the group starts with a
digit. -/
def extract_sqft (t : List Char) : Option ℤ :=
  match reSearch sqftPat1 t with
  | some (g :: _) => some (digitsVal (stripCommas g))
  | _ =>
    match reSearch sqftPat2 t with
    | some (g :: _) => some (digitsVal (stripCommas g))
    | _ => none

/-- The single-figure branch of `_extract_budget` (`budget of $500k`):
outer `none` is a Python `ValueError` from `float`. -/
def extract_budget_single (t : List Char) : Option (Option (ℤ × ℤ)) :=
  match reSearch budgetPat3 t with
  | some (g :: _) =>
    match pyFloatOfDigitsDots (stripCommas g) with
    | some v0 =>
      let v1 := if v0 < 1000 then v0 * 1000 else v0
      let val := ratTrunc v1
      some (some (ratTrunc ((val : ℚ) * 0.8), ratTrunc ((val : ℚ) * 1.2)))
    | none => none
  | _ => some none

/-- `_extract_budget(text)`: `some none` = no budget found (Python
`None`), `none` = a `ValueError` escaped (Python exception). -/
def extract_budget (t : List Char) : Option (Option (ℤ × ℤ)) :=
  match reSearch budgetPat1 t with
  | some (g1 :: g2 :: _) =>
    match pyFloatOfDigitsDots (stripCommas g1), pyFloatOfDigitsDots (stripCommas g2) with
    | some lo0, some hi0 =>
      let lo := if lo0 < 1000 then lo0 * 1000 else lo0
      let hi := if hi0 < 1000 then hi0 * 1000 else hi0
      some (some (ratTrunc lo, ratTrunc hi))
    | _, _ => none
  | _ =>
    match reSearch budgetPat2 t with
    | some (g1 :: g2 :: _) =>
      match pyIntOfDigits (stripCommas g1), pyIntOfDigits (stripCommas g2) with
      | some lo, some hi =>
        if lo > 10000 ∧ hi > 10000 then some (some (lo, hi))
        else extract_budget_single t
      | _, _ => none
    | _ => extract_budget_single t

/-- `_extract_lot_sqft(text)`: acres, `half acre`, `quarter acre`, then an
explicit `... sqft lot`; `some none` = not found, `none` = `ValueError`. -/
def extract_lot_sqft (t : List Char) : Option (Option ℤ) :=
  match reSearch acrePat t with
  | some (g :: _) =>
    match pyFloatOfDigitsDots g with
    | some v => some (some (ratTrunc (v * 43560)))
    | none => none
  | _ =>
    if reTest halfAcrePat t then some (some 21780)
    else if reTest quarterAcrePat t then some (some 10890)
    else
      match reSearch lotSqftPat t with
      | some (g :: _) =>
        match pyIntOfDigits (stripCommas g) with
        | some v => some (some v)
        | none => none
      | _ => some none

/-- `_detect_style(text)`: first style keyword (in table order) that is a
substring of the lowered text; default `"modern"`. -/
def detect_style (t : List Char) : String :=
  ((style_keywords.find? (fun p => substrIn p.1 t)).map Prod.snd).getD "modern"

/-- `_detect_special_requirements(text)`: every catalog feature that is a
substring of the lowered text, title-cased, in catalog order. -/
def detect_special_requirements (t : List Char) : List String :=
  (special_features.filter (fun f => substrIn f t)).map
    (fun f => pyTitle (String.mk (f.toList.map (fun c => if c == '-' then ' ' else c))))

/-- The pattern `no\s+{kw}` for a literal keyword. -/
def noKwPat (kw : List Char) : RE :=
  RE.seq (RE.lit "no") (RE.seq (RE.plus spaceC) ((kw.map RE.chr).foldr RE.seq RE.eps))

/-- Search for `\bno\s+kw` in the lowered text: a position where `no`
starts either at the beginning or after a non-word character (`\b`),
followed by one or more spaces and the keyword.  `prevWord` says whether
the previous character was a word character. -/
def searchNoKw (kw : List Char) : Bool → List Char → Bool
  | prevWord, [] =>
      ¬prevWord && ¬(matchR ((kw.length + 8) * 4) (noKwPat kw) []).isEmpty
  | prevWord, c :: cs =>
      (¬prevWord &&
        ¬(matchR (((c :: cs).length + 3) * ((noKwPat kw).sz + 3)) (noKwPat kw) (c :: cs)).isEmpty)
      || searchNoKw kw (pyWordChar c) cs

/-- `_detect_bool_feature(text, keywords)`: `some false` if `no <kw>`
appears (word-boundary before `no`), `some true` if a keyword appears,
`none` if not mentioned — scanning keywords in order. -/
def detect_bool_feature (t : List Char) : List String → Option Bool
  | [] => none
  | kw :: rest =>
    if searchNoKw kw.toList false t then some false
    else if substrIn kw t then some true
    else detect_bool_feature t rest

/-! ## `schemas.py` — `RequirementSpecification` -/

/-- `RequirementSpecification` (field order as in `schemas.py`). -/
structure RSO where
  bedrooms : ℤ
  bathrooms : ℚ
  floors : ℤ
  style : String
  budget_range : ℤ × ℤ
  lot_sqft : ℤ
  target_sqft : ℤ
  special_requirements : List String
  garage : Bool
  outdoor_space : Bool
deriving DecidableEq, Repr

/-- The pydantic bounds of `RequirementSpecification`: bedrooms in
`[1, 20]`, bathrooms in `[1, 15]`, floors in `[1, 4]`, lot_sqft ≥ 1000,
target_sqft ≥ 400 (budget, style and the remaining fields are
unconstrained). -/
def RSO.validB (r : RSO) : Bool :=
  decide (1 ≤ r.bedrooms) && decide (r.bedrooms ≤ 20) &&
  decide (1 ≤ r.bathrooms) && decide (r.bathrooms ≤ 15) &&
  decide (1 ≤ r.floors) && decide (r.floors ≤ 4) &&
  decide (1000 ≤ r.lot_sqft) && decide (400 ≤ r.target_sqft)

/-- Python `x or d` for an optional int (`None` and `0` are falsy). -/
def pyOrInt (o : Option ℤ) (d : ℤ) : ℤ :=
  match o with
  | some n => if n = 0 then d else n
  | none => d

/-- Python `a or b` keeping the right operand as-is when the left is falsy
(`None` or `0`). -/
def pyOrOpt (a b : Option ℤ) : Option ℤ :=
  match a with
  | some n => if n = 0 then b else some n
  | none => b

/-- Value of the storey word group:
`{"single":1,"double":2,"triple":3}.get(word) or _WORD_TO_NUM.get(word) or int(word)`
(the group is a single digit if it is not one of the words). -/
def storeyVal (g : List Char) : ℤ :=
  let w := String.mk g
  if w = "single" then 1
  else if w = "double" then 2
  else if w = "triple" then 3
  else
    match word_to_num.lookup w with
    | some v => v
    | none => digitsVal g

/-- `_default_sqft(bedrooms, floors)`. -/
def default_sqft (bedrooms floors : ℤ) : ℤ :=
  (800 + bedrooms * 350) * floors

/-- The field computation of `parse_vibe(vibe_text)` before pydantic
validation; `none` is an escaped exception (`ValueError` in
`_extract_budget` / `_extract_lot_sqft`). -/
def parse_vibe_fields (vibe_text : String) : Option RSO :=
  let t := lowerL vibe_text
  let bedrooms := pyOrInt (extract_number_before t bedKw) 3
  let bathrooms_raw := extract_number_before t bathKw
  let bathrooms0 : ℚ :=
    match bathrooms_raw with
    | some n => if n = 0 then max 2 ((bedrooms : ℚ) * 0.75) else (n : ℚ)
    | none => max 2 ((bedrooms : ℚ) * 0.75)
  let bathrooms := if reTest halfBathPat t then bathrooms0 + 0.5 else bathrooms0
  let floors_chain :=
    pyOrOpt (extract_number_before t storKw)
      (pyOrOpt (extract_number_before t (RE.lit "floor"))
        (extract_number_before t (RE.lit "level")))
  let floors_raw :=
    match floors_chain with
    | some v => some v
    | none =>
      match reSearch storeyPat t with
      | some (g :: _) => some (storeyVal g)
      | _ => none
  let floors := pyOrInt floors_raw 1
  let style := detect_style t
  match extract_budget t with
  | none => none
  | some budgetOpt =>
    let budget := budgetOpt.getD (250000, 450000)
    let target_sqft := pyOrInt (extract_sqft t) (default_sqft bedrooms floors)
    match extract_lot_sqft t with
    | none => none
    | some lotOpt =>
      let lot_sqft := pyOrInt lotOpt (max (target_sqft * 3) 6000)
      let special := detect_special_requirements t
      let garage := (detect_bool_feature t ["garage"]).getD true
      let outdoor := (detect_bool_feature t
        ["outdoor", "patio", "deck", "porch", "yard", "garden"]).getD true
      some ⟨bedrooms, bathrooms, floors, style, budget, lot_sqft,
            target_sqft, special, garage, outdoor⟩

/-- `parse_vibe(vibe_text)`: field computation followed by pydantic
validation of the constructed `RequirementSpecification`; `none` means the
Python call raises. -/
def parse_vibe (vibe_text : String) : Option RSO :=
  match parse_vibe_fields vibe_text with
  | some r => if r.validB then some r else none
  | none => none

end VibeSpec

namespace VibeSpec

/-! ## `schemas.py` — floor-plan primitives -/

/-- `RoomLayout`. -/
structure RoomLayout where
  room_name : String
  sqft : ℤ
  floor : ℤ
deriving DecidableEq, Repr

/-- `DesignOption` (field order as in `schemas.py`). -/
structure DesignOption where
  option_id : String
  title : String
  description : String
  total_sqft : ℤ
  rooms : List RoomLayout
  estimated_cost : ℤ
  style_score : ℚ
  efficiency_score : ℚ
  floor_plan_url : Option String
deriving DecidableEq, Repr

/-! ## `plan_generator.py` -/

/-- `_COST_PER_SQFT` (base cost per square foot by style). -/
def cost_per_sqft_table : List (String × ℚ) :=
  [("modern", 195), ("contemporary", 200), ("farmhouse", 175),
   ("craftsman", 185), ("colonial", 180), ("ranch", 160)]

/-- `_cost_per_sqft(style)`: table lookup with default `185.0`. -/
def cost_per_sqft (style : String) : ℚ :=
  (cost_per_sqft_table.lookup style).getD 185

/-- `sum(r.sqft for r in rooms if r.room_name != "Garage")` —
`_total_living_sqft` and the in-loop conditioned-area accumulator of
`_build_rooms` are this same expression. -/
def total_living_sqft (rooms : List RoomLayout) : ℤ :=
  ((rooms.filter (fun r => r.room_name != "Garage")).map (fun r => r.sqft)).sum

/-- The room list of `_build_rooms` before the final
`Hallways / Circulation` entry, in construction order. -/
def rooms_before (rso : RSO) (m : ℚ) : List RoomLayout :=
  [⟨"Primary Bedroom", ratTrunc (220 * m), rso.floors⟩]
  ++ (List.range' 1 (rso.bedrooms - 1).toNat).map (fun i =>
      ⟨"Bedroom " ++ toString (i + 1), ratTrunc (150 * m),
       if rso.floors > 1 then min ((i : ℤ) + 1) rso.floors else 1⟩)
  ++ [⟨"Primary Bathroom", ratTrunc (100 * m), rso.floors⟩]
  ++ (List.range' 1 (ratTrunc rso.bathrooms - 1).toNat).map (fun i =>
      ⟨"Bathroom " ++ toString (i + 1), ratTrunc (65 * m),
       if rso.floors > 1 then max 1 (rso.floors - (i : ℤ) + 1) else 1⟩)
  ++ (if Int.fract rso.bathrooms ≥ 1/2 then
        [⟨"Half Bath", ratTrunc (35 * m), 1⟩] else [])
  ++ [⟨"Kitchen", ratTrunc (200 * m), 1⟩,
      ⟨"Living Room", ratTrunc (280 * m), 1⟩,
      ⟨"Dining Room", ratTrunc (160 * m), 1⟩,
      ⟨"Laundry Room", ratTrunc (60 * m), 1⟩,
      ⟨"Foyer / Entry", ratTrunc (50 * m), 1⟩]
  ++ (if rso.garage then [⟨"Garage", ratTrunc (440 * m), 1⟩] else [])
  ++ (if rso.outdoor_space then
        [⟨"Covered Patio / Outdoor Living", ratTrunc (200 * m), 1⟩] else [])
  ++ rso.special_requirements.map (fun req =>
      ⟨req, ratTrunc (120 * m), if rso.floors = 1 then 1 else rso.floors⟩)

/-- `_build_rooms(rso, sqft_multiplier)`: the rooms above plus the
circulation allowance (8 % of the conditioned area so far, truncated). -/
def build_rooms (rso : RSO) (m : ℚ) : List RoomLayout :=
  let rooms := rooms_before rso m
  let conditioned_sqft := total_living_sqft rooms
  rooms ++ [⟨"Hallways / Circulation", ratTrunc ((conditioned_sqft : ℚ) * 0.08), 1⟩]

/-- `generate_plans(rso)`: the three options, in order.  `ids i` models the
`uuid.uuid4()`-based `option_id` of the `i`-th constructed option. -/
def generate_plans (ids : ℕ → String) (rso : RSO) : List DesignOption :=
  let cost_sqft := cost_per_sqft rso.style
  let rooms_a := build_rooms rso 0.85
  let total_a := total_living_sqft rooms_a
  let rooms_b := build_rooms rso 1.00
  let total_b := total_living_sqft rooms_b
  let rooms_c := build_rooms rso 1.20
  let total_c := total_living_sqft rooms_c
  [{ option_id := ids 0
     title := "Efficient Living"
     description := "A compact, budget-conscious design that maximises every square foot. Open-concept living and dining areas keep the footprint tight without sacrificing liveability.  Ideal for cost-sensitive builds."
     total_sqft := total_a
     rooms := rooms_a
     estimated_cost := ratTrunc ((total_a : ℚ) * cost_sqft * 0.90)
     style_score := pyRound1 (7.5 + (if rso.style = "ranch" then 0.3 else 0.0))
     efficiency_score := 9.2
     floor_plan_url := none },
   { option_id := ids 1
     title := "Spacious Comfort"
     description := "A well-balanced design offering comfortable room sizes and thoughtful flow between spaces.  The kitchen opens to both the dining and living areas, with generous bedrooms and ample storage."
     total_sqft := total_b
     rooms := rooms_b
     estimated_cost := ratTrunc ((total_b : ℚ) * cost_sqft)
     style_score := 8.5
     efficiency_score := 7.8
     floor_plan_url := none },
   { option_id := ids 2
     title := "Premium Design"
     description := "A spacious, high-end design with oversized rooms, luxury finishes, and room to grow.  Features a grand entry foyer, spa-inspired primary bath, and chef\x27s kitchen with island seating."
     total_sqft := total_c
     rooms := rooms_c
     estimated_cost := ratTrunc ((total_c : ℚ) * cost_sqft * 1.12)
     style_score := 9.4
     efficiency_score := 6.5
     floor_plan_url := none }]

end VibeSpec

namespace VibeSpec

/-! ## `schemas.py` — engineering & MEP -/

/-- `EngineeringReport` (dicts modelled as ordered association lists). -/
structure EngineeringReport where
  foundation_type : String
  structural_system : String
  load_calculations : List (String × ℚ)
  material_specs : List (String × String)
  compliance_notes : List String
deriving DecidableEq, Repr

/-- `MEPPlan`. -/
structure MEPPlan where
  electrical_circuits : ℤ
  plumbing_fixtures : ℤ
  hvac_tonnage : ℚ
  estimated_cost : ℤ
deriving DecidableEq, Repr

/-! ## `engineering.py` -/

/-- `max(r.floor for r in design.rooms) if design.rooms else 1` — this
exact expression is recomputed in `_select_foundation`,
`analyze_structure`, `generate_mep_plan` (engineering.py) and
`estimate_costs` (cost_estimator.py). -/
def floors_of (rooms : List RoomLayout) : ℤ :=
  match rooms with
  | [] => 1
  | r :: rs => rs.foldl (fun a x => max a x.floor) r.floor

/-- `_select_foundation(design)`. -/
def select_foundation (design : DesignOption) : String :=
  let floors := floors_of design.rooms
  if floors ≥ 3 ∨ design.total_sqft > 4000 then "full basement"
  else if floors = 2 ∨ design.total_sqft > 2500 then "crawl space"
  else "slab-on-grade"

/-- `_select_structural_system(design)`. -/
def select_structural_system (design : DesignOption) : String :=
  if design.total_sqft > 5000 then "steel frame with wood infill"
  else if design.total_sqft > 3500 then "engineered wood frame (LVL/TJI)"
  else "conventional wood frame (2x6)"

/-- `analyze_structure(design)`; `sqrtF` models `math.sqrt`. -/
def analyze_structure (sqrtF : ℚ → ℚ) (design : DesignOption) : EngineeringReport :=
  let sqft : ℚ := (design.total_sqft : ℚ)
  let floors := floors_of design.rooms
  let foundation := select_foundation design
  let structural_system := select_structural_system design
  let dead_load_floor_psf : ℚ := 15
  let live_load_floor_psf : ℚ := 40
  let dead_load_roof_psf : ℚ := 12
  let live_load_roof_psf : ℚ := 20
  let wind_load_psf : ℚ := 25
  let total_gravity_kips := pyRound1
    ((dead_load_floor_psf + live_load_floor_psf) * sqft * (floors : ℚ) / 1000
     + (dead_load_roof_psf + live_load_roof_psf) * (sqft / (max floors 1 : ℤ)) / 1000)
  let perimeter_ft := 4 * sqrtF (sqft / (max floors 1 : ℤ))
  let bearing_wall_plf := pyRound0 (total_gravity_kips * 1000 / perimeter_ft)
  let load_calculations : List (String × ℚ) :=
    [("dead_load_floor_psf", dead_load_floor_psf),
     ("live_load_floor_psf", live_load_floor_psf),
     ("dead_load_roof_psf", dead_load_roof_psf),
     ("live_load_roof_psf", live_load_roof_psf),
     ("wind_load_psf", wind_load_psf),
     ("total_gravity_kips", total_gravity_kips),
     ("bearing_wall_plf", bearing_wall_plf)]
  let material_specs : List (String × String) :=
    [("foundation_concrete", "4000 PSI normal-weight concrete"),
     ("rebar", "#4 and #5 Grade 60 rebar"),
     ("framing_lumber", "SPF #2 or better, kiln-dried"),
     ("sheathing", "7/16\" OSB structural sheathing"),
     ("fasteners", "16d common nails per IRC Table R602.3(1)")]
    ++ (if substrS "steel" (lowerS structural_system) then
          [("steel_beams", "W10x22 A992 Grade 50 wide-flange"),
           ("steel_columns", "HSS 4x4x1/4\" A500 Grade B")] else [])
    ++ (if substrS "engineered" (lowerS structural_system) then
          [("lvl_beams", "1-3/4\" x 11-7/8\" LVL (2.0E)"),
           ("tji_joists", "TJI 210 at 16\" O.C.")] else [])
    ++ (if foundation = "full basement" then
          [("basement_walls", "10\" poured concrete or 12\" CMU")] else [])
  let compliance_notes : List String :=
    ["Design complies with IRC 2021 for one- and two-family dwellings.",
     "Foundation type: " ++ foundation ++ " — verify local frost-depth requirements.",
     "Roof framing designed for 20.0 PSF live load; verify local snow-load requirements and adjust if necessary.",
     "Lateral bracing per IRC Section R602.10 (wall bracing).",
     "All structural connections to use Simpson Strong-Tie or equivalent hardware."]
    ++ (if floors ≥ 2 then
          ["Second-floor framing requires engineered joist schedule — refer to TJI span tables for final sizing."]
        else [])
    ++ (if sqft > 3500 then
          ["Large footprint may require intermediate bearing walls or steel beams — confirm with a licensed structural engineer."]
        else [])
  { foundation_type := foundation
    structural_system := structural_system
    load_calculations := load_calculations
    material_specs := material_specs
    compliance_notes := compliance_notes }

/-- The bathroom count of `generate_mep_plan` / `estimate_costs`:
rooms whose lowered name contains `"bath"`. -/
def bath_count (rooms : List RoomLayout) : ℤ :=
  ((rooms.filter (fun r => substrIn "bath" (lowerL r.room_name))).length : ℤ)

/-- Is there a room whose lowered name contains `"garage"`? -/
def has_garage (rooms : List RoomLayout) : Bool :=
  rooms.any (fun r => substrIn "garage" (lowerL r.room_name))

/-- `generate_mep_plan(design)`. -/
def generate_mep_plan (design : DesignOption) : MEPPlan :=
  let sqft : ℚ := (design.total_sqft : ℚ)
  let floors := floors_of design.rooms
  let base_circuits : ℤ := max 8 ⌈sqft / 500⌉
  let bathroom_count := bath_count design.rooms
  let dedicated_circuits := 5 + bathroom_count + (if has_garage design.rooms then 1 else 0)
  let electrical_circuits := base_circuits + dedicated_circuits
  let fixtures := design.rooms.foldl (fun acc room =>
    let nm := lowerL room.room_name
    if substrIn "primary bath" nm then acc + 4
    else if substrIn "half bath" nm then acc + 2
    else if substrIn "bath" nm then acc + 3
    else if substrIn "kitchen" nm then acc + 2
    else if substrIn "laundry" nm then acc + 2
    else acc) (0 : ℤ)
  let plumbing_fixtures := max fixtures 6
  let tonnage0 := pyRound1 (max 1.5 (sqft / 550))
  let hvac_tonnage := if floors ≥ 2 then pyRound1 (tonnage0 + 0.5) else tonnage0
  let electrical_cost : ℚ := (electrical_circuits : ℚ) * 280 + sqft * 6
  let plumbing_cost : ℚ := (plumbing_fixtures : ℚ) * 750 + sqft * 4
  let hvac_cost : ℚ := hvac_tonnage * 3200 + sqft * 3
  { electrical_circuits := electrical_circuits
    plumbing_fixtures := plumbing_fixtures
    hvac_tonnage := hvac_tonnage
    estimated_cost := ratTrunc (electrical_cost + plumbing_cost + hvac_cost) }

end VibeSpec

namespace VibeSpec

/-! ## `schemas.py` — cost estimation -/

/-- `MaterialItem`. -/
structure MaterialItem where
  name : String
  category : String
  quantity : ℚ
  unit : String
  unit_cost : ℚ
  total_cost : ℚ
deriving DecidableEq, Repr

/-- `CostEstimate` (labor dict as an ordered association list). -/
structure CostEstimate where
  materials : List MaterialItem
  labor_costs : List (String × ℚ)
  total_materials : ℚ
  total_labor : ℚ
  contingency : ℚ
  grand_total : ℚ
deriving DecidableEq, Repr

/-! ## `cost_estimator.py` -/

/-- `_LOCATION_MULTIPLIERS`, in declaration order. -/
def location_multipliers : List (String × ℚ) :=
  [("san francisco", 1.35), ("new york", 1.30), ("los angeles", 1.25),
   ("seattle", 1.20), ("denver", 1.10), ("austin", 1.05), ("dallas", 1.00),
   ("atlanta", 0.95), ("phoenix", 0.95), ("houston", 0.95),
   ("chicago", 1.10), ("miami", 1.05)]

/-- `_location_multiplier(location)`: `1.0` for `None` or an empty string,
else exact match on the stripped lowered key, else the first city related
to the key by substring containment in either direction, else `1.0`. -/
def location_multiplier : Option String → ℚ
  | none => 1
  | some loc =>
    if loc = "" then 1
    else
      let key := lowerS loc.trim
      match location_multipliers.lookup key with
      | some m => m
      | none =>
        ((location_multipliers.find? (fun p => substrS p.1 key || substrS key p.1)).map
          Prod.snd).getD 1

/-- `_concrete_items(sqft, floors, mult)`. -/
def concrete_items (sqft : ℚ) (floors : ℤ) (mult : ℚ) : List MaterialItem :=
  let footprint := sqft / (max floors 1 : ℤ)
  let slab_cuyd := pyRound1 (footprint * 0.012)
  let slab_cost := pyRound2 (185 * mult)
  let footing_cuyd := pyRound1 (footprint * 0.006)
  let rebar_lbs := pyRound0 (footprint * 1.2)
  [{ name := "Foundation Concrete (4000 PSI)", category := "Concrete",
     quantity := slab_cuyd, unit := "cu yd",
     unit_cost := slab_cost, total_cost := pyRound2 (slab_cuyd * slab_cost) },
   { name := "Footing Concrete (3500 PSI)", category := "Concrete",
     quantity := footing_cuyd, unit := "cu yd",
     unit_cost := pyRound2 (175 * mult),
     total_cost := pyRound2 (footing_cuyd * 175 * mult) },
   { name := "Rebar (#4 & #5 Grade 60)", category := "Concrete",
     quantity := rebar_lbs, unit := "lbs",
     unit_cost := pyRound2 (0.75 * mult),
     total_cost := pyRound2 (rebar_lbs * 0.75 * mult) }]

/-- `_lumber_items(sqft, floors, mult)`; `sqrtF` models `math.sqrt`. -/
def lumber_items (sqrtF : ℚ → ℚ) (sqft : ℚ) (floors : ℤ) (mult : ℚ) : List MaterialItem :=
  let bd_ft := pyRound0 (sqft * 6.5)
  let wall_area := sqrtF (sqft / (max floors 1 : ℤ)) * 4 * 9 * (floors : ℚ)
  let floor_area := sqft
  let sheets : ℤ := ⌈(wall_area + floor_area) / 32⌉
  [{ name := "Framing Lumber (SPF #2, 2x6)", category := "Lumber",
     quantity := bd_ft, unit := "bd ft",
     unit_cost := pyRound2 (0.85 * mult),
     total_cost := pyRound2 (bd_ft * 0.85 * mult) },
   { name := "OSB Sheathing (7/16\")", category := "Lumber",
     quantity := (sheets : ℚ), unit := "sheets (4x8)",
     unit_cost := pyRound2 (28 * mult),
     total_cost := pyRound2 ((sheets : ℚ) * 28 * mult) }]
  ++ (if floors > 1 then
        let joist_count : ℤ := ⌈sqft / (max floors 1 : ℤ) / 1.33⌉
        [{ name := "Engineered I-Joists (TJI 210, 11-7/8\")", category := "Lumber",
           quantity := (joist_count : ℚ), unit := "ea",
           unit_cost := pyRound2 (18.50 * mult),
           total_cost := pyRound2 ((joist_count : ℚ) * 18.50 * mult) }]
      else [])

/-- `_roofing_items(sqft, floors, mult)`. -/
def roofing_items (sqrtF : ℚ → ℚ) (sqft : ℚ) (floors : ℤ) (mult : ℚ) : List MaterialItem :=
  let footprint := sqft / (max floors 1 : ℤ)
  let roof_sqft := footprint * 1.15
  let squares := pyRound1 (roof_sqft / 100)
  [{ name := "Architectural Shingles (30-year)", category := "Roofing",
     quantity := squares, unit := "sq (100 sqft)",
     unit_cost := pyRound2 (120 * mult),
     total_cost := pyRound2 (squares * 120 * mult) },
   { name := "Roofing Underlayment (synthetic)", category := "Roofing",
     quantity := squares, unit := "sq",
     unit_cost := pyRound2 (25 * mult),
     total_cost := pyRound2 (squares * 25 * mult) },
   { name := "Drip Edge & Flashing", category := "Roofing",
     quantity := pyRound0 (sqrtF footprint * 4), unit := "lin ft",
     unit_cost := pyRound2 (2.50 * mult),
     total_cost := pyRound2 (sqrtF footprint * 4 * 2.50 * mult) }]

/-- `_insulation_items(sqft, floors, mult)`. -/
def insulation_items (sqrtF : ℚ → ℚ) (sqft : ℚ) (floors : ℤ) (mult : ℚ) : List MaterialItem :=
  let wall_sqft := sqrtF (sqft / (max floors 1 : ℤ)) * 4 * 9 * (floors : ℚ)
  [{ name := "Batt Insulation (R-21, 2x6 walls)", category := "Insulation",
     quantity := pyRound0 wall_sqft, unit := "sq ft",
     unit_cost := pyRound2 (1.10 * mult),
     total_cost := pyRound2 (wall_sqft * 1.10 * mult) },
   { name := "Blown-in Attic Insulation (R-49)", category := "Insulation",
     quantity := pyRound0 (sqft / (max floors 1 : ℤ)), unit := "sq ft",
     unit_cost := pyRound2 (1.75 * mult),
     total_cost := pyRound2 (sqft / (max floors 1 : ℤ) * 1.75 * mult) }]

/-- `_electrical_items(sqft, mult)`. -/
def electrical_items (sqft : ℚ) (mult : ℚ) : List MaterialItem :=
  let wire_ft := pyRound0 (sqft * 3.5)
  let outlets : ℤ := max 12 ⌈sqft / 80⌉
  [{ name := "Romex NM-B 14/2 Wire", category := "Electrical",
     quantity := wire_ft, unit := "ft",
     unit_cost := pyRound2 (0.45 * mult),
     total_cost := pyRound2 (wire_ft * 0.45 * mult) },
   { name := "Electrical Panel (200A)", category := "Electrical",
     quantity := 1, unit := "ea",
     unit_cost := pyRound2 (1800 * mult),
     total_cost := pyRound2 (1800 * mult) },
   { name := "Outlets / Switches / Covers", category := "Electrical",
     quantity := (outlets : ℚ), unit := "ea",
     unit_cost := pyRound2 (12 * mult),
     total_cost := pyRound2 ((outlets : ℚ) * 12 * mult) }]

/-- `_plumbing_items(sqft, bathrooms, mult)`. -/
def plumbing_items (sqft : ℚ) (bathrooms : ℤ) (mult : ℚ) : List MaterialItem :=
  let pipe_ft := pyRound0 (sqft * 1.2)
  let heaters : ℤ := max 1 ⌈(bathrooms : ℚ) / 3⌉
  [{ name := "PEX Tubing (3/4\" & 1/2\")", category := "Plumbing",
     quantity := pipe_ft, unit := "ft",
     unit_cost := pyRound2 (1.25 * mult),
     total_cost := pyRound2 (pipe_ft * 1.25 * mult) },
   { name := "PVC Drain Pipe (3\" & 4\")", category := "Plumbing",
     quantity := pyRound0 (pipe_ft * 0.4), unit := "ft",
     unit_cost := pyRound2 (3.50 * mult),
     total_cost := pyRound2 (pipe_ft * 0.4 * 3.50 * mult) },
   { name := "Water Heater (50 gal, gas)", category := "Plumbing",
     quantity := (heaters : ℚ), unit := "ea",
     unit_cost := pyRound2 (1400 * mult),
     total_cost := pyRound2 ((heaters : ℚ) * 1400 * mult) }]

/-- Render a one-decimal rational the way a Python float of one decimal
prints inside an f-string (`3.5`, `2.0`), for the HVAC item name. -/
def fmt1 (q : ℚ) : String :=
  let n : ℤ := ⌊q * 10⌋
  toString (n / 10) ++ "." ++ toString (n % 10)

/-- `_hvac_items(sqft, mult)`. -/
def hvac_items (sqft : ℚ) (mult : ℚ) : List MaterialItem :=
  let tonnage := pyRound1 (max 1.5 (sqft / 550))
  let duct_ft := pyRound0 (sqft * 0.8)
  [{ name := "HVAC System (" ++ fmt1 tonnage ++ "-ton split system)", category := "HVAC",
     quantity := 1, unit := "ea",
     unit_cost := pyRound2 (tonnage * 3200 * mult),
     total_cost := pyRound2 (tonnage * 3200 * mult) },
   { name := "Ductwork (flex & rigid)", category := "HVAC",
     quantity := duct_ft, unit := "ft",
     unit_cost := pyRound2 (6.50 * mult),
     total_cost := pyRound2 (duct_ft * 6.50 * mult) }]

/-- `_drywall_items(sqft, floors, mult)`. -/
def drywall_items (sqrtF : ℚ → ℚ) (sqft : ℚ) (floors : ℤ) (mult : ℚ) : List MaterialItem :=
  let wall_sqft := sqrtF (sqft / (max floors 1 : ℤ)) * 4 * 9 * (floors : ℚ)
  let ceiling_sqft := sqft
  let total_dw := wall_sqft + ceiling_sqft
  let sheets : ℤ := ⌈total_dw / 32⌉
  [{ name := "Drywall (1/2\" 4x8 sheets)", category := "Interior",
     quantity := (sheets : ℚ), unit := "sheets",
     unit_cost := pyRound2 (14.50 * mult),
     total_cost := pyRound2 ((sheets : ℚ) * 14.50 * mult) },
   { name := "Joint Compound & Tape", category := "Interior",
     quantity := ((⌈(sheets : ℚ) / 10⌉ : ℤ) : ℚ), unit := "buckets",
     unit_cost := pyRound2 (18.00 * mult),
     total_cost := pyRound2 (((⌈(sheets : ℚ) / 10⌉ : ℤ) : ℚ) * 18.00 * mult) }]

/-- `_labor_costs(sqft, floors, mult)`, in declaration order. -/
def labor_costs (sqft : ℚ) (floors : ℤ) (mult : ℚ) : List (String × ℚ) :=
  [("Site Work & Excavation", pyRound2 (sqft * 3.50 * mult)),
   ("Concrete & Foundation", pyRound2 (sqft * 5.00 * mult)),
   ("Framing", pyRound2 (sqft * 12.00 * mult * (1 + 0.15 * ((floors : ℚ) - 1)))),
   ("Roofing", pyRound2 (sqft / (max floors 1 : ℤ) * 4.50 * mult)),
   ("Plumbing", pyRound2 (sqft * 5.50 * mult)),
   ("Electrical", pyRound2 (sqft * 5.00 * mult)),
   ("HVAC", pyRound2 (sqft * 4.50 * mult)),
   ("Insulation", pyRound2 (sqft * 2.00 * mult)),
   ("Drywall", pyRound2 (sqft * 3.50 * mult)),
   ("Painting", pyRound2 (sqft * 3.00 * mult)),
   ("Flooring", pyRound2 (sqft * 6.00 * mult)),
   ("Cabinetry & Countertops", pyRound2 (sqft * 4.00 * mult)),
   ("Trim & Finish Carpentry", pyRound2 (sqft * 3.50 * mult)),
   ("Windows & Doors", pyRound2 (sqft * 3.00 * mult)),
   ("Exterior Finishes (Siding)", pyRound2 (sqft * 3.50 * mult)),
   ("Cleanup & Dumpsters", pyRound2 (sqft * 1.00 * mult))]

/-- The body of `estimate_costs` once the location multiplier `mult` has
been computed. -/
def estimate_costs_mult (sqrtF : ℚ → ℚ) (design : DesignOption) (mult : ℚ) : CostEstimate :=
  let sqft : ℚ := (design.total_sqft : ℚ)
  let floors := floors_of design.rooms
  let bathroom_count := bath_count design.rooms
  let materials :=
    concrete_items sqft floors mult
    ++ lumber_items sqrtF sqft floors mult
    ++ roofing_items sqrtF sqft floors mult
    ++ insulation_items sqrtF sqft floors mult
    ++ electrical_items sqft mult
    ++ plumbing_items sqft bathroom_count mult
    ++ hvac_items sqft mult
    ++ drywall_items sqrtF sqft floors mult
  let total_materials := pyRound2 ((materials.map (fun item => item.total_cost)).sum)
  let labor := labor_costs sqft floors mult
  let total_labor := pyRound2 ((labor.map Prod.snd).sum)
  let subtotal := total_materials + total_labor
  let contingency := pyRound2 (subtotal * 0.10)
  let grand_total := pyRound2 (subtotal + contingency)
  { materials := materials
    labor_costs := labor
    total_materials := total_materials
    total_labor := total_labor
    contingency := contingency
    grand_total := grand_total }

/-- `estimate_costs(design, location=None)`. -/
def estimate_costs (sqrtF : ℚ → ℚ) (design : DesignOption) (location : Option String) : CostEstimate :=
  estimate_costs_mult sqrtF design (location_multiplier location)

end VibeSpec

namespace VibeSpec

/-! ## `service.py` — `VibeEngineService.process_vibe`

The pure computational content of the orchestrator: parse, generate the
three options, and for each option emit the floor-plan, structural, MEP
and cost-estimate artifacts in that order.  Database persistence and the
uuid/project metadata of `DesignArtifact` rows are elided; each artifact
keeps its option linkage and payload. -/

/-- One persisted artifact payload, tagged by `DesignArtifactType`. -/
inductive ArtifactPayload where
  | floor_plan (design : DesignOption) : ArtifactPayload
  | structural (option_id : String) (report : EngineeringReport) : ArtifactPayload
  | mep (option_id : String) (plan : MEPPlan) : ArtifactPayload
  | cost_estimate (option_id : String) (estimate : CostEstimate) : ArtifactPayload
deriving DecidableEq, Repr

/-- `process_vibe(project_id, vibe_text, db)`: `none` when `parse_vibe`
raises; note the cost stage is `estimate_costs(design)` — no location
argument. -/
def process_vibe (sqrtF : ℚ → ℚ) (ids : ℕ → String) (vibe_text : String) :
    Option (List ArtifactPayload) :=
  (parse_vibe vibe_text).map (fun rso =>
    (generate_plans ids rso).flatMap (fun design =>
      [ArtifactPayload.floor_plan design,
       ArtifactPayload.structural design.option_id (analyze_structure sqrtF design),
       ArtifactPayload.mep design.option_id (generate_mep_plan design),
       ArtifactPayload.cost_estimate design.option_id (estimate_costs sqrtF design none)]))

end VibeSpec

namespace VibeSpec

/-! ## Concrete instances used by counterexamples and witnesses -/

/-- A definite stand-in for `math.sqrt` used to instantiate closed
statements (none of their values depend on it). -/
def sqrt0 : ℚ → ℚ := fun _ => 0

/-- A definite stand-in for the `uuid.uuid4()` option-id generator. -/
def ids0 : ℕ → String := fun i => "opt_" ++ toString i

/-- The defaulted specification produced by `parse_vibe ""`. -/
def rso_empty : RSO :=
  ⟨3, 9/4, 1, "modern", (250000, 450000), 6000, 1850, [], true, true⟩

/-- A small single-room design (1000 living sqft, one floor). -/
def design1000 : DesignOption :=
  ⟨"opt_x", "t", "d", 1000, [⟨"Room", 1000, 1⟩], 0, 5, 5, none⟩

/-- A single-room design of 1010 living sqft, whose PVC-drain-pipe
quantity `1212 × 0.4 = 484.8` is fractional. -/
def design1010 : DesignOption :=
  ⟨"opt_y", "t", "d", 1010, [⟨"Room", 1010, 1⟩], 0, 5, 5, none⟩

/-- A placeholder item for `headD` in closed statements. -/
def dummyItem : MaterialItem := ⟨"", "", 0, "", 0, 0⟩

/-- A placeholder design for `headD` in closed statements. -/
def dummyDesign : DesignOption := ⟨"", "", "", 0, [], 0, 0, 0, none⟩

/-! ## Claim theorems -/



/-- `_extract_number_before` finds no bedroom number in the empty text. -/
theorem bed_empty : extract_number_before (lowerL "") bedKw = none := by
  with_unfolding_all decide

/-- No bathroom number in the empty text. -/
theorem bath_empty : extract_number_before (lowerL "") bathKw = none := by
  with_unfolding_all decide

/-- No `half bath` in the empty text. -/
theorem halfbath_empty : reTest halfBathPat (lowerL "") = false := by
  with_unfolding_all decide

/-- No storey count in the empty text. -/
theorem stor_empty : extract_number_before (lowerL "") storKw = none := by
  with_unfolding_all decide

/-- No floor count in the empty text. -/
theorem floor_empty : extract_number_before (lowerL "") (RE.lit "floor") = none := by
  with_unfolding_all decide

/-- No level count in the empty text. -/
theorem level_empty : extract_number_before (lowerL "") (RE.lit "level") = none := by
  with_unfolding_all decide

/-- No `two-story`-style pattern in the empty text. -/
theorem storey_empty : reSearch storeyPat (lowerL "") = none := by
  with_unfolding_all decide

/-- No style keyword in the empty text. -/
theorem style_empty : detect_style (lowerL "") = "modern" := by
  with_unfolding_all decide

/-- No budget in the empty text. -/
theorem budget_empty : extract_budget (lowerL "") = some none := by
  with_unfolding_all decide

/-- No square footage in the empty text. -/
theorem sqft_empty : extract_sqft (lowerL "") = none := by
  with_unfolding_all decide

/-- No lot size in the empty text. -/
theorem lot_empty : extract_lot_sqft (lowerL "") = some none := by
  with_unfolding_all decide

/-- No special features in the empty text. -/
theorem special_empty : detect_special_requirements (lowerL "") = [] := by
  with_unfolding_all decide

/-- The garage flag is not mentioned in the empty text. -/
theorem garage_empty : detect_bool_feature (lowerL "") ["garage"] = none := by
  with_unfolding_all decide

/-- The outdoor flag is not mentioned in the empty text. -/
theorem outdoor_empty :
    detect_bool_feature (lowerL "") ["outdoor", "patio", "deck", "porch", "yard", "garden"] = none := by
  with_unfolding_all decide

/-- `parse_vibe("")` computes exactly the default field values. -/
theorem parse_fields_empty : parse_vibe_fields "" = some rso_empty := by
  simp only [parse_vibe_fields]
  rw [bed_empty, bath_empty, halfbath_empty, stor_empty, floor_empty, level_empty,
    storey_empty, style_empty, budget_empty, sqft_empty, lot_empty, special_empty,
    garage_empty, outdoor_empty]
  simp only [pyOrInt, pyOrOpt, rso_empty, default_sqft, Option.getD]
  norm_num

/-- The defaults pass pydantic validation, so `parse_vibe ""` succeeds. -/
theorem parse_empty : parse_vibe "" = some rso_empty := by
  have hv : rso_empty.validB = true := by with_unfolding_all decide
  simp only [parse_vibe, parse_fields_empty, hv, if_true]

/-- On `"21 bedrooms"` the digit form extracts 21. -/
theorem bed_21 : extract_number_before (lowerL "21 bedrooms") bedKw = some 21 := by
  with_unfolding_all decide

/-- No bathroom number in `"21 bedrooms"`. -/
theorem bath_21 : extract_number_before (lowerL "21 bedrooms") bathKw = none := by
  with_unfolding_all decide

/-- No `half bath` in `"21 bedrooms"`. -/
theorem halfbath_21 : reTest halfBathPat (lowerL "21 bedrooms") = false := by
  with_unfolding_all decide

/-- No storey count in `"21 bedrooms"`. -/
theorem stor_21 : extract_number_before (lowerL "21 bedrooms") storKw = none := by
  with_unfolding_all decide

/-- No floor count in `"21 bedrooms"`. -/
theorem floor_21 : extract_number_before (lowerL "21 bedrooms") (RE.lit "floor") = none := by
  with_unfolding_all decide

/-- No level count in `"21 bedrooms"`. -/
theorem level_21 : extract_number_before (lowerL "21 bedrooms") (RE.lit "level") = none := by
  with_unfolding_all decide

/-- No `two-story`-style pattern in `"21 bedrooms"`. -/
theorem storey_21 : reSearch storeyPat (lowerL "21 bedrooms") = none := by
  with_unfolding_all decide

/-- No style keyword in `"21 bedrooms"`. -/
theorem style_21 : detect_style (lowerL "21 bedrooms") = "modern" := by
  with_unfolding_all decide

/-- No budget in `"21 bedrooms"`. -/
theorem budget_21 : extract_budget (lowerL "21 bedrooms") = some none := by
  with_unfolding_all decide

/-- No square footage in `"21 bedrooms"`. -/
theorem sqft_21 : extract_sqft (lowerL "21 bedrooms") = none := by
  with_unfolding_all decide

/-- No lot size in `"21 bedrooms"`. -/
theorem lot_21 : extract_lot_sqft (lowerL "21 bedrooms") = some none := by
  with_unfolding_all decide

/-- No special features in `"21 bedrooms"`. -/
theorem special_21 : detect_special_requirements (lowerL "21 bedrooms") = [] := by
  with_unfolding_all decide

/-- The garage flag is not mentioned in `"21 bedrooms"`. -/
theorem garage_21 : detect_bool_feature (lowerL "21 bedrooms") ["garage"] = none := by
  with_unfolding_all decide

/-- The outdoor flag is not mentioned in `"21 bedrooms"`. -/
theorem outdoor_21 :
    detect_bool_feature (lowerL "21 bedrooms") ["outdoor", "patio", "deck", "porch", "yard", "garden"] = none := by
  with_unfolding_all decide

/-- The field computation on `"21 bedrooms"`: bedrooms = 21, bathrooms
default `max(2, 21 × 0.75) = 15.75`, default target sqft
`(800 + 21 × 350) × 1 = 8150`, lot `max(3 × 8150, 6000) = 24450`. -/
theorem parse_fields_21 :
    parse_vibe_fields "21 bedrooms" =
      some ⟨21, 63/4, 1, "modern", (250000, 450000), 24450, 8150, [], true, true⟩ := by
  simp only [parse_vibe_fields]
  rw [bed_21, bath_21, halfbath_21, stor_21, floor_21, level_21,
    storey_21, style_21, budget_21, sqft_21, lot_21, special_21,
    garage_21, outdoor_21]
  simp only [pyOrInt, pyOrOpt, default_sqft, Option.getD]
  norm_num

/-- C1 (counterexample): the claim says `parse("")` yields
`bathrooms = 2.0`; in fact the default is
`max(2.0, bedrooms × 0.75) = max(2.0, 3 × 0.75) = 2.25`, so `parse_vibe`
does not return the claimed bathroom default on the empty string. -/
theorem C1_counterexample :
    (parse_vibe "").map RSO.bathrooms = some (9/4 : ℚ) ∧ ((9/4 : ℚ) ≠ (2 : ℚ)) := by
  rw [parse_empty]
  constructor
  · simp [rso_empty]
  · norm_num

/-- C1 (amended): `parse_vibe ""` returns exactly the defaults
bedrooms = 3, bathrooms = 2.25 (not the claimed 2.0), floors = 1,
style = "modern", budget_range = (250000, 450000), lot_sqft = 6000,
target_sqft = 1850, no special requirements, garage = true,
outdoor_space = true. -/
theorem C1_amended :
    parse_vibe "" =
      some ⟨3, 9/4, 1, "modern", (250000, 450000), 6000, 1850, [], true, true⟩ := by
  rw [parse_empty, rso_empty]

/-- C2 (counterexample): `parse_vibe` is not total — on `"21 bedrooms"`
the extracted bedroom count 21 violates the pydantic bound
`bedrooms ≤ 20` of `RequirementSpecification`, so the Python call raises
a `ValidationError` (modelled as `none`) instead of returning a
specification. -/
theorem C2_counterexample :
    parse_vibe "21 bedrooms" = none ∧
    (parse_vibe_fields "21 bedrooms").map RSO.bedrooms = some 21 := by
  have hv : RSO.validB ⟨21, 63/4, 1, "modern", (250000, 450000), 24450, 8150, [], true, true⟩ = false := by
    with_unfolding_all decide
  constructor
  · simp only [parse_vibe, parse_fields_21, hv, Bool.false_eq_true, if_false]
  · rw [parse_fields_21]
    rfl

/-- C2 (amended): `parse_vibe` returns a specification exactly when the
field computation raises no `ValueError` (budget / lot numeric
conversions) and the extracted values satisfy the pydantic bounds
(bedrooms ≤ 20, bathrooms ≤ 15, floors ≤ 4, target_sqft ≥ 400,
lot_sqft ≥ 1000, and the lower bounds); on such inputs the result is the
deterministic field computation. -/
theorem C2_amended (t : String) (r : RSO) :
    parse_vibe t = some r ↔ (parse_vibe_fields t = some r ∧ r.validB = true) := by
  unfold parse_vibe
  cases h : parse_vibe_fields t with
  | none => simp
  | some r0 =>
    by_cases hv : r0.validB
    · simp only [hv, if_true]
      constructor
      · rintro ⟨rfl⟩
        exact ⟨rfl, hv⟩
      · rintro ⟨⟨rfl⟩, _⟩
        rfl
    · simp only [hv, if_false]
      constructor
      · rintro ⟨⟩
      · rintro ⟨⟨rfl⟩, hv2⟩
        exact absurd hv2 hv

/-- C5 (counterexample): on a 1000-sqft single-floor design,
`analyze_structure` returns the structural system
`"conventional wood frame (2x6)"`, which is not in the claim's enumerated
set `{"conventional wood frame", "engineered wood frame",
"steel frame with wood infill"}` — the code's strings carry the
parenthetical suffixes `(2x6)` and `(LVL/TJI)`. -/
theorem C5_counterexample :
    (analyze_structure sqrt0 design1000).structural_system = "conventional wood frame (2x6)" ∧
    ("conventional wood frame (2x6)" ∉
      ["conventional wood frame", "engineered wood frame", "steel frame with wood infill"]) := by
  constructor
  · rfl
  · decide

/-- C5 (amended): for every design, `analyze_structure` returns a
foundation_type in {"slab-on-grade", "crawl space", "full basement"} and
a structural_system selected by the claimed thresholds (steel if
total_sqft > 5000, engineered if > 3500, else conventional), with the
code's exact strings "conventional wood frame (2x6)" and
"engineered wood frame (LVL/TJI)" for the two wood-frame tiers. -/
theorem C5_amended (sqrtF : ℚ → ℚ) (design : DesignOption) :
    (analyze_structure sqrtF design).foundation_type ∈
      ["slab-on-grade", "crawl space", "full basement"] ∧
    (analyze_structure sqrtF design).structural_system =
      (if design.total_sqft > 5000 then "steel frame with wood infill"
       else if design.total_sqft > 3500 then "engineered wood frame (LVL/TJI)"
       else "conventional wood frame (2x6)") ∧
    (analyze_structure sqrtF design).structural_system ∈
      ["conventional wood frame (2x6)", "engineered wood frame (LVL/TJI)",
       "steel frame with wood infill"] := by
  refine ⟨?_, ?_, ?_⟩
  · show select_foundation design ∈ _
    simp only [select_foundation]
    split
    · simp
    · split <;> simp
  · show select_structural_system design = _
    unfold select_structural_system
    rfl
  · show select_structural_system design ∈ _
    unfold select_structural_system
    split
    · simp
    · split <;> simp

/-- C8: for every design, `generate_mep_plan` returns
`electrical_circuits = max(8, ceil(total_sqft/500)) + 5 + (number of
rooms whose name contains "bath", case-insensitively) + (1 if some room
name contains "garage", else 0)`. -/
theorem C8_mep_circuits (design : DesignOption) :
    (generate_mep_plan design).electrical_circuits =
      max 8 ⌈(design.total_sqft : ℚ) / 500⌉ + 5
        + ((design.rooms.filter (fun r => substrIn "bath" (lowerL r.room_name))).length : ℤ)
        + (if design.rooms.any (fun r => substrIn "garage" (lowerL r.room_name)) then 1 else 0) := by
  show max 8 ⌈(design.total_sqft : ℚ) / 500⌉ + (5 + bath_count design.rooms
    + (if has_garage design.rooms then 1 else 0)) = _
  unfold bath_count has_garage
  ring

/-- C9: `process_vibe` calls `estimate_costs(design)` with no location
argument, and `_location_multiplier(None) = 1.0`, so every persisted cost
estimate equals the estimate computed with multiplier exactly 1 — the
city table is never consulted by the orchestrator. -/
theorem C9_no_location (sqrtF : ℚ → ℚ) (ids : ℕ → String) (text : String) :
    location_multiplier none = 1 ∧
    process_vibe sqrtF ids text = (parse_vibe text).map (fun rso =>
      (generate_plans ids rso).flatMap (fun design =>
        [ArtifactPayload.floor_plan design,
         ArtifactPayload.structural design.option_id (analyze_structure sqrtF design),
         ArtifactPayload.mep design.option_id (generate_mep_plan design),
         ArtifactPayload.cost_estimate design.option_id
           (estimate_costs_mult sqrtF design 1)])) :=
  ⟨rfl, rfl⟩

/-- C4: for every `DesignOption` produced by `generate_plans`, the sum of
`RoomLayout.sqft` over all rooms whose name is not `"Garage"` equals the
option's `total_sqft` field. -/
theorem C4_total_sqft_invariant (ids : ℕ → String) (rso : RSO) (opt : DesignOption)
    (h : opt ∈ generate_plans ids rso) :
    ((opt.rooms.filter (fun r => r.room_name != "Garage")).map (fun r => r.sqft)).sum
      = opt.total_sqft := by
  simp only [generate_plans, List.mem_cons, List.not_mem_nil, or_false] at h
  rcases h with rfl | rfl | rfl <;> rfl

/-- C4 (witness): the invariant instantiated on the first option
generated from the default specification. -/
theorem C4_witness :
    ((((generate_plans ids0 rso_empty).headD dummyDesign).rooms.filter
        (fun r => r.room_name != "Garage")).map (fun r => r.sqft)).sum
      = ((generate_plans ids0 rso_empty).headD dummyDesign).total_sqft :=
  C4_total_sqft_invariant ids0 rso_empty _
    (by simp only [generate_plans, List.headD_cons]; exact List.mem_cons_self _ _)

/-- Folding `max` over floors all bounded by `a`, starting at `a`, stays
at `a`. -/
theorem foldl_max_of_le (l : List RoomLayout) (a : ℤ)
    (h : ∀ r ∈ l, r.floor ≤ a) :
    l.foldl (fun b x => max b x.floor) a = a := by
  induction l generalizing a with
  | nil => rfl
  | cons r rs ih =>
    have h1 : r.floor ≤ a := h r (List.mem_cons_self r rs)
    simp only [List.foldl_cons, max_eq_left h1]
    exact ih a (fun x hx => h x (List.mem_cons_of_mem _ hx))

/-- Every room generated by `_build_rooms` sits on a floor between 1 and
the specification's floor count. -/
theorem rooms_floor_le (rso : RSO) (m : ℚ) (hf : 1 ≤ rso.floors) :
    ∀ r ∈ build_rooms rso m, r.floor ≤ rso.floors := by
  intro r hr
  simp only [build_rooms] at hr
  rcases List.mem_append.1 hr with hr | hr
  swap
  · rcases List.mem_singleton.1 hr with rfl
    exact hf
  simp only [rooms_before] at hr
  rcases List.mem_append.1 hr with hr | hr
  swap
  · obtain ⟨req, _, rfl⟩ := List.mem_map.1 hr
    by_cases h1 : rso.floors = 1
    · simp only [h1, if_true]; omega
    · simp only [h1, if_false]
      exact le_refl _
  rcases List.mem_append.1 hr with hr | hr
  swap
  · split at hr
    · rcases List.mem_singleton.1 hr with rfl
      exact hf
    · exact absurd hr (List.not_mem_nil r)
  rcases List.mem_append.1 hr with hr | hr
  swap
  · split at hr
    · rcases List.mem_singleton.1 hr with rfl
      exact hf
    · exact absurd hr (List.not_mem_nil r)
  rcases List.mem_append.1 hr with hr | hr
  swap
  · simp only [List.mem_cons, List.not_mem_nil, or_false] at hr
    rcases hr with rfl | rfl | rfl | rfl | rfl <;> exact hf
  rcases List.mem_append.1 hr with hr | hr
  swap
  · split at hr
    · rcases List.mem_singleton.1 hr with rfl
      exact hf
    · exact absurd hr (List.not_mem_nil r)
  rcases List.mem_append.1 hr with hr | hr
  swap
  · obtain ⟨i, hi, rfl⟩ := List.mem_map.1 hr
    have hi1 : 1 ≤ i := (List.mem_range'_1.1 hi).1
    by_cases h2 : rso.floors > 1
    · simp only [h2, if_true, max_le_iff]
      exact ⟨hf, by omega⟩
    · simp only [h2, if_false]; exact hf
  rcases List.mem_append.1 hr with hr | hr
  swap
  · rcases List.mem_singleton.1 hr with rfl
    exact le_refl _
  rcases List.mem_append.1 hr with hr | hr
  swap
  · obtain ⟨i, hi, rfl⟩ := List.mem_map.1 hr
    by_cases h2 : rso.floors > 1
    · simp only [h2, if_true]
      exact min_le_right _ _
    · simp only [h2, if_false]; exact hf
  rcases List.mem_singleton.1 hr with rfl
  exact le_refl _

/-- `_build_rooms` always begins with the primary bedroom, placed on the
top floor. -/
theorem build_rooms_cons (rso : RSO) (m : ℚ) :
    ∃ t, build_rooms rso m =
      (⟨"Primary Bedroom", ratTrunc (220 * m), rso.floors⟩ : RoomLayout) :: t :=
  ⟨_, rfl⟩

/-- The maximum room floor of a generated room list equals the
specification's floor count (the primary bedroom attains it, every other
room is bounded by it). -/
theorem floors_of_build (rso : RSO) (m : ℚ) (hf : 1 ≤ rso.floors) :
    floors_of (build_rooms rso m) = rso.floors := by
  obtain ⟨t, ht⟩ := build_rooms_cons rso m
  have hb := rooms_floor_le rso m hf
  rw [ht]
  simp only [floors_of]
  apply foldl_max_of_le
  intro x hx
  exact hb x (ht ▸ List.mem_cons_of_mem _ hx)

/-- C10: for every valid specification, each of the three generated
options has a non-empty rooms list whose maximum `RoomLayout.floor`
equals the specification's `floors`; hence the
`max(r.floor ...) if rooms else 1` expression recomputed by
`analyze_structure`, `generate_mep_plan` and `estimate_costs`
(`floors_of`) returns the original `floors`, and the empty-rooms fallback
branch is unreachable on generated designs. -/
theorem C10_floors (ids : ℕ → String) (rso : RSO) (hv : rso.validB = true) :
    ∀ opt ∈ generate_plans ids rso, opt.rooms ≠ [] ∧ floors_of opt.rooms = rso.floors := by
  have hf : 1 ≤ rso.floors := by
    simp only [RSO.validB, Bool.and_eq_true, decide_eq_true_eq] at hv
    exact hv.1.1.1.2
  intro opt hm
  simp only [generate_plans, List.mem_cons, List.not_mem_nil, or_false] at hm
  have hne : ∀ m : ℚ, build_rooms rso m ≠ [] := by
    intro m
    obtain ⟨t, ht⟩ := build_rooms_cons rso m
    rw [ht]
    exact List.cons_ne_nil _ _
  rcases hm with rfl | rfl | rfl <;>
    exact ⟨hne _, floors_of_build rso _ hf⟩

/-- C10 (witness): instantiated on the first option generated from the
default specification. -/
theorem C10_witness :
    ((generate_plans ids0 rso_empty).headD dummyDesign).rooms ≠ [] ∧
    floors_of ((generate_plans ids0 rso_empty).headD dummyDesign).rooms = rso_empty.floors :=
  C10_floors ids0 rso_empty (by with_unfolding_all decide) _
    (by simp only [generate_plans, List.headD_cons]; exact List.mem_cons_self _ _)

/-- `round` of an integer value is that integer. -/
theorem halfEven_intCast (k : ℤ) : halfEven (k : ℚ) = k := by
  unfold halfEven
  simp only [Int.floor_intCast, sub_self]
  norm_num

/-- `round(x, 2)` is the identity on whole-cent amounts. -/
theorem pyRound2_cents (k : ℤ) : pyRound2 ((k : ℚ) / 100) = (k : ℚ) / 100 := by
  unfold pyRound2
  have h : ((k : ℚ) / 100) * 100 = (k : ℚ) := by field_simp
  rw [h, halfEven_intCast]

/-- Every `round(x, 2)` result is a whole number of cents. -/
theorem cents_pyRound2 (q : ℚ) : ∃ k : ℤ, pyRound2 q = (k : ℚ) / 100 :=
  ⟨halfEven (q * 100), rfl⟩

/-- A sum of whole-cent amounts is a whole number of cents. -/
theorem cents_sum {α : Type} (f : α → ℚ) (l : List α)
    (h : ∀ x ∈ l, ∃ k : ℤ, f x = (k : ℚ) / 100) :
    ∃ k : ℤ, (l.map f).sum = (k : ℚ) / 100 := by
  induction l with
  | nil => exact ⟨0, by simp⟩
  | cons a as ih =>
    obtain ⟨ka, hka⟩ := h a (List.mem_cons_self a as)
    obtain ⟨ks, hks⟩ := ih (fun x hx => h x (List.mem_cons_of_mem _ hx))
    refine ⟨ka + ks, ?_⟩
    simp only [List.map_cons, List.sum_cons, hka, hks]
    push_cast
    ring

/-- Every concrete line total is rounded to cents. -/
theorem concrete_cents (sqft : ℚ) (floors : ℤ) (mult : ℚ) :
    ∀ it ∈ concrete_items sqft floors mult, ∃ k : ℤ, it.total_cost = (k : ℚ) / 100 := by
  intro it h
  simp only [concrete_items, List.mem_cons, List.not_mem_nil, or_false] at h
  rcases h with rfl | rfl | rfl <;> exact cents_pyRound2 _

/-- Every lumber line total is rounded to cents. -/
theorem lumber_cents (sqrtF : ℚ → ℚ) (sqft : ℚ) (floors : ℤ) (mult : ℚ) :
    ∀ it ∈ lumber_items sqrtF sqft floors mult, ∃ k : ℤ, it.total_cost = (k : ℚ) / 100 := by
  intro it h
  simp only [lumber_items] at h
  rcases List.mem_append.1 h with h | h
  · simp only [List.mem_cons, List.not_mem_nil, or_false] at h
    rcases h with rfl | rfl <;> exact cents_pyRound2 _
  · split at h
    · simp only [List.mem_cons, List.not_mem_nil, or_false] at h
      rcases h with rfl
      exact cents_pyRound2 _
    · exact absurd h (List.not_mem_nil it)

/-- Every roofing line total is rounded to cents. -/
theorem roofing_cents (sqrtF : ℚ → ℚ) (sqft : ℚ) (floors : ℤ) (mult : ℚ) :
    ∀ it ∈ roofing_items sqrtF sqft floors mult, ∃ k : ℤ, it.total_cost = (k : ℚ) / 100 := by
  intro it h
  simp only [roofing_items, List.mem_cons, List.not_mem_nil, or_false] at h
  rcases h with rfl | rfl | rfl <;> exact cents_pyRound2 _

/-- Every insulation line total is rounded to cents. -/
theorem insulation_cents (sqrtF : ℚ → ℚ) (sqft : ℚ) (floors : ℤ) (mult : ℚ) :
    ∀ it ∈ insulation_items sqrtF sqft floors mult, ∃ k : ℤ, it.total_cost = (k : ℚ) / 100 := by
  intro it h
  simp only [insulation_items, List.mem_cons, List.not_mem_nil, or_false] at h
  rcases h with rfl | rfl <;> exact cents_pyRound2 _

/-- Every electrical line total is rounded to cents. -/
theorem electrical_cents (sqft : ℚ) (mult : ℚ) :
    ∀ it ∈ electrical_items sqft mult, ∃ k : ℤ, it.total_cost = (k : ℚ) / 100 := by
  intro it h
  simp only [electrical_items, List.mem_cons, List.not_mem_nil, or_false] at h
  rcases h with rfl | rfl | rfl <;> exact cents_pyRound2 _

/-- Every plumbing line total is rounded to cents. -/
theorem plumbing_cents (sqft : ℚ) (bathrooms : ℤ) (mult : ℚ) :
    ∀ it ∈ plumbing_items sqft bathrooms mult, ∃ k : ℤ, it.total_cost = (k : ℚ) / 100 := by
  intro it h
  simp only [plumbing_items, List.mem_cons, List.not_mem_nil, or_false] at h
  rcases h with rfl | rfl | rfl <;> exact cents_pyRound2 _

/-- Every HVAC line total is rounded to cents. -/
theorem hvac_cents (sqft : ℚ) (mult : ℚ) :
    ∀ it ∈ hvac_items sqft mult, ∃ k : ℤ, it.total_cost = (k : ℚ) / 100 := by
  intro it h
  simp only [hvac_items, List.mem_cons, List.not_mem_nil, or_false] at h
  rcases h with rfl | rfl <;> exact cents_pyRound2 _

/-- Every drywall line total is rounded to cents. -/
theorem drywall_cents (sqrtF : ℚ → ℚ) (sqft : ℚ) (floors : ℤ) (mult : ℚ) :
    ∀ it ∈ drywall_items sqrtF sqft floors mult, ∃ k : ℤ, it.total_cost = (k : ℚ) / 100 := by
  intro it h
  simp only [drywall_items, List.mem_cons, List.not_mem_nil, or_false] at h
  rcases h with rfl | rfl <;> exact cents_pyRound2 _

/-- Every trade labor cost is rounded to cents. -/
theorem labor_cents (sqft : ℚ) (floors : ℤ) (mult : ℚ) :
    ∀ x ∈ labor_costs sqft floors mult, ∃ k : ℤ, x.2 = (k : ℚ) / 100 := by
  intro x h
  simp only [labor_costs, List.mem_cons, List.not_mem_nil, or_false] at h
  rcases h with rfl | rfl | rfl | rfl | rfl | rfl | rfl | rfl | rfl | rfl | rfl | rfl | rfl | rfl | rfl | rfl <;>
    exact cents_pyRound2 _

/-- Every material line total in the full take-off is a whole number of
cents. -/
theorem materials_cents (sqrtF : ℚ → ℚ) (sqft : ℚ) (floors : ℤ) (bc : ℤ) (mult : ℚ) :
    ∀ it ∈ (concrete_items sqft floors mult
        ++ lumber_items sqrtF sqft floors mult
        ++ roofing_items sqrtF sqft floors mult
        ++ insulation_items sqrtF sqft floors mult
        ++ electrical_items sqft mult
        ++ plumbing_items sqft bc mult
        ++ hvac_items sqft mult
        ++ drywall_items sqrtF sqft floors mult),
      ∃ k : ℤ, it.total_cost = (k : ℚ) / 100 := by
  intro it h
  rcases List.mem_append.1 h with h | h
  swap
  · exact drywall_cents sqrtF sqft floors mult it h
  rcases List.mem_append.1 h with h | h
  swap
  · exact hvac_cents sqft mult it h
  rcases List.mem_append.1 h with h | h
  swap
  · exact plumbing_cents sqft bc mult it h
  rcases List.mem_append.1 h with h | h
  swap
  · exact electrical_cents sqft mult it h
  rcases List.mem_append.1 h with h | h
  swap
  · exact insulation_cents sqrtF sqft floors mult it h
  rcases List.mem_append.1 h with h | h
  swap
  · exact roofing_cents sqrtF sqft floors mult it h
  rcases List.mem_append.1 h with h | h
  swap
  · exact lumber_cents sqrtF sqft floors mult it h
  exact concrete_cents sqft floors mult it h

/-- C6: in every generated `CostEstimate`,
`contingency = round(0.10 × (total_materials + total_labor), 2)` and
`grand_total = round(total_materials + total_labor + contingency, 2)`,
where `total_materials` is the sum of all material line totals and
`total_labor` the sum of all trade labor costs (the code's rounded
`total_materials` / `total_labor` fields coincide with the raw sums
because every line is already a whole number of cents). -/
theorem C6_contingency_grand_total (sqrtF : ℚ → ℚ) (design : DesignOption)
    (location : Option String) :
    (estimate_costs sqrtF design location).contingency =
      pyRound2 (0.10 *
        ((((estimate_costs sqrtF design location).materials.map (fun it => it.total_cost)).sum)
          + (((estimate_costs sqrtF design location).labor_costs.map Prod.snd).sum))) ∧
    (estimate_costs sqrtF design location).grand_total =
      pyRound2 ((((estimate_costs sqrtF design location).materials.map (fun it => it.total_cost)).sum)
        + (((estimate_costs sqrtF design location).labor_costs.map Prod.snd).sum)
        + (estimate_costs sqrtF design location).contingency) := by
  simp only [estimate_costs, estimate_costs_mult]
  obtain ⟨km, hkm⟩ := cents_sum (fun it : MaterialItem => it.total_cost) _
    (materials_cents sqrtF (design.total_sqft : ℚ) (floors_of design.rooms)
      (bath_count design.rooms) (location_multiplier location))
  obtain ⟨kl, hkl⟩ := cents_sum Prod.snd _
    (labor_cents (design.total_sqft : ℚ) (floors_of design.rooms)
      (location_multiplier location))
  rw [hkm, hkl, pyRound2_cents, pyRound2_cents]
  constructor
  · rw [mul_comm]
  · rfl

/-- With multiplier 1 and a whole-cent base rate, rounding the rate does
not change a line total computed from the raw product. -/
theorem itemOK_of_rate (x c : ℚ) (k : ℤ) (hc : c = (k : ℚ) / 100) :
    pyRound2 (x * c * 1) = pyRound2 (x * pyRound2 (c * 1)) := by
  have h1 : c * 1 = c := mul_one c
  rw [h1, hc, pyRound2_cents]
  congr 1
  ring

/-- A quantity-1 line whose total is its (rounded) unit price satisfies
the quantity × unit-cost rounding equation. -/
theorem itemOK_one (c : ℚ) : pyRound2 c = pyRound2 (1 * pyRound2 c) := by
  obtain ⟨k, hk⟩ := cents_pyRound2 c
  rw [hk, one_mul, pyRound2_cents]

/-- C7 (amended): with no location (multiplier 1.0), every material item
except the four whose totals are computed from an unrounded quantity
(drip edge, batt insulation, attic insulation, PVC drain pipe) satisfies
`total_cost = round(quantity × unit_cost, 2)`.  (With a non-unit
multiplier even more lines differ, since the code multiplies by the
unrounded `rate × multiplier`.) -/
theorem C7_amended (sqrtF : ℚ → ℚ) (design : DesignOption) :
    ∀ it ∈ (estimate_costs sqrtF design none).materials,
      it.name ∉ ["Drip Edge & Flashing", "Batt Insulation (R-21, 2x6 walls)",
                 "Blown-in Attic Insulation (R-49)", "PVC Drain Pipe (3\" & 4\")"] →
      it.total_cost = pyRound2 (it.quantity * it.unit_cost) := by
  intro it h hname
  show it.total_cost = pyRound2 (it.quantity * it.unit_cost)
  have h1 : it ∈ (estimate_costs_mult sqrtF design 1).materials := h
  simp only [estimate_costs_mult] at h1
  rcases List.mem_append.1 h1 with h1 | h1
  swap
  · simp only [drywall_items, List.mem_cons, List.not_mem_nil, or_false] at h1
    rcases h1 with rfl | rfl
    · exact itemOK_of_rate _ 14.50 1450 (by norm_num)
    · exact itemOK_of_rate _ 18.00 1800 (by norm_num)
  rcases List.mem_append.1 h1 with h1 | h1
  swap
  · simp only [hvac_items, List.mem_cons, List.not_mem_nil, or_false] at h1
    rcases h1 with rfl | rfl
    · exact itemOK_one _
    · exact itemOK_of_rate _ 6.50 650 (by norm_num)
  rcases List.mem_append.1 h1 with h1 | h1
  swap
  · simp only [plumbing_items, List.mem_cons, List.not_mem_nil, or_false] at h1
    rcases h1 with rfl | rfl | rfl
    · exact itemOK_of_rate _ 1.25 125 (by norm_num)
    · exact absurd (by simp) hname
    · exact itemOK_of_rate _ 1400 140000 (by norm_num)
  rcases List.mem_append.1 h1 with h1 | h1
  swap
  · simp only [electrical_items, List.mem_cons, List.not_mem_nil, or_false] at h1
    rcases h1 with rfl | rfl | rfl
    · exact itemOK_of_rate _ 0.45 45 (by norm_num)
    · exact itemOK_one _
    · exact itemOK_of_rate _ 12 1200 (by norm_num)
  rcases List.mem_append.1 h1 with h1 | h1
  swap
  · simp only [insulation_items, List.mem_cons, List.not_mem_nil, or_false] at h1
    rcases h1 with rfl | rfl
    · exact absurd (by simp) hname
    · exact absurd (by simp) hname
  rcases List.mem_append.1 h1 with h1 | h1
  swap
  · simp only [roofing_items, List.mem_cons, List.not_mem_nil, or_false] at h1
    rcases h1 with rfl | rfl | rfl
    · exact itemOK_of_rate _ 120 12000 (by norm_num)
    · exact itemOK_of_rate _ 25 2500 (by norm_num)
    · exact absurd (by simp) hname
  rcases List.mem_append.1 h1 with h1 | h1
  swap
  · simp only [lumber_items] at h1
    rcases List.mem_append.1 h1 with h1 | h1
    · simp only [List.mem_cons, List.not_mem_nil, or_false] at h1
      rcases h1 with rfl | rfl
      · exact itemOK_of_rate _ 0.85 85 (by norm_num)
      · exact itemOK_of_rate _ 28 2800 (by norm_num)
    · split at h1
      · simp only [List.mem_cons, List.not_mem_nil, or_false] at h1
        rcases h1 with rfl
        exact itemOK_of_rate _ 18.50 1850 (by norm_num)
      · exact absurd h1 (List.not_mem_nil it)
  simp only [concrete_items, List.mem_cons, List.not_mem_nil, or_false] at h1
  rcases h1 with rfl | rfl | rfl
  · rfl
  · exact itemOK_of_rate _ 175 17500 (by norm_num)
  · exact itemOK_of_rate _ 0.75 75 (by norm_num)

/-- C7 (counterexample): for a 1010-sqft single-floor design with no
location, the PVC drain pipe line has quantity `round(1212 × 0.4) = 485`,
unit cost 3.50, but `total_cost = round(1212 × 0.4 × 3.5, 2) = 1696.80 ≠
round(485 × 3.5, 2) = 1697.50` — the code computes the total from the
unrounded quantity, so `total_cost = quantity × unit_cost` fails. -/
theorem C7_counterexample :
    ((estimate_costs sqrt0 design1010 none).materials.getD 14 dummyItem).name
        = "PVC Drain Pipe (3\" & 4\")" ∧
    ((estimate_costs sqrt0 design1010 none).materials.getD 14 dummyItem).total_cost ≠
      pyRound2 (((estimate_costs sqrt0 design1010 none).materials.getD 14 dummyItem).quantity
        * ((estimate_costs sqrt0 design1010 none).materials.getD 14 dummyItem).unit_cost) := by
  constructor
  · with_unfolding_all decide
  · with_unfolding_all decide

/-- C7 (witness): the amended equation holds for the foundation-slab line
of the same estimate. -/
theorem C7_witness :
    ((estimate_costs sqrt0 design1010 none).materials.getD 0 dummyItem).total_cost
      = pyRound2 (((estimate_costs sqrt0 design1010 none).materials.getD 0 dummyItem).quantity
          * ((estimate_costs sqrt0 design1010 none).materials.getD 0 dummyItem).unit_cost) := by
  obtain ⟨x, t, hxt⟩ : ∃ x t, (estimate_costs sqrt0 design1010 none).materials = x :: t :=
    ⟨_, _, rfl⟩
  have hget : (estimate_costs sqrt0 design1010 none).materials.getD 0 dummyItem = x := by
    rw [hxt]
    rfl
  rw [hget]
  refine C7_amended sqrt0 design1010 x ?_ ?_
  · rw [hxt]
    exact List.mem_cons_self _ _
  · have hx : x = ((estimate_costs sqrt0 design1010 none).materials.getD 0 dummyItem) := hget.symm
    rw [hx]
    with_unfolding_all decide

/-- The conditioned-area sum distributes over list append. -/
theorem tls_append (a b : List RoomLayout) :
    total_living_sqft (a ++ b) = total_living_sqft a + total_living_sqft b := by
  simp [total_living_sqft, List.filter_append]

/-- The conditioned-area sum of a single non-garage room is its area. -/
theorem tls_single (r : RoomLayout) (h : (r.room_name != "Garage") = true) :
    total_living_sqft [r] = r.sqft := by
  simp [total_living_sqft, List.filter, h]

/-- The garage room is excluded from the conditioned-area sum. -/
theorem tls_garage (s f : ℤ) :
    total_living_sqft [⟨"Garage", s, f⟩] = 0 := by
  simp [total_living_sqft, List.filter]

/-- The conditioned-area sum of no rooms is zero. -/
theorem tls_nil : total_living_sqft [] = 0 := rfl

/-- A run of rooms with a common area and non-garage names contributes
`count × area`. -/
theorem tls_range_map (s n : ℕ) (f : ℕ → RoomLayout) (v : ℤ)
    (hname : ∀ i, ((f i).room_name != "Garage") = true)
    (hsq : ∀ i, (f i).sqft = v) :
    total_living_sqft ((List.range' s n).map f) = (n : ℤ) * v := by
  induction n generalizing s with
  | zero => simp [total_living_sqft]
  | succ k ih =>
    rw [List.range'_succ, List.map_cons]
    have : (f s :: (List.range' (s + 1) k).map f) = [f s] ++ (List.range' (s + 1) k).map f := rfl
    rw [this, tls_append, tls_single (f s) (hname s), hsq s, ih (s + 1)]
    push_cast
    ring

/-- Special-requirement rooms contribute `area` for each requirement not
literally named `"Garage"`. -/
theorem tls_specials (reqs : List String) (v fl : ℤ) :
    total_living_sqft (reqs.map (fun req => ⟨req, v, fl⟩)) =
      ((reqs.filter (fun s => s != "Garage")).length : ℤ) * v := by
  induction reqs with
  | nil => simp [total_living_sqft]
  | cons a as ih =>
    rw [List.map_cons]
    have : ((⟨a, v, fl⟩ : RoomLayout) :: as.map (fun req => ⟨req, v, fl⟩))
        = [⟨a, v, fl⟩] ++ as.map (fun req => ⟨req, v, fl⟩) := rfl
    rw [this, tls_append, ih]
    rw [List.filter_cons]
    by_cases h : (a != "Garage") = true
    · rw [tls_single _ h, if_pos h]
      simp only [List.length_cons]
      push_cast
      ring
    · have h0 : a = "Garage" := by
        simpa using h
      subst h0
      rw [tls_garage, if_neg (by simp)]
      ring

/-- No `Bedroom n` room is named `Garage` (the names differ in length). -/
theorem bedroom_ne (s : String) : (("Bedroom " ++ s) != "Garage") = true := by
  rw [bne_iff_ne]
  intro hcontra
  have hlen := congrArg String.length hcontra
  rw [String.length_append] at hlen
  have h8 : "Bedroom ".length = 8 := rfl
  have h6 : "Garage".length = 6 := rfl
  omega

/-- No `Bathroom n` room is named `Garage`. -/
theorem bathroom_ne (s : String) : (("Bathroom " ++ s) != "Garage") = true := by
  rw [bne_iff_ne]
  intro hcontra
  have hlen := congrArg String.length hcontra
  rw [String.length_append] at hlen
  have h9 : "Bathroom ".length = 9 := rfl
  have h6 : "Garage".length = 6 := rfl
  omega

/-- Conditioned-area sum of an optional single non-garage room. -/
theorem tls_ite_single (c : Prop) [Decidable c] (r : RoomLayout)
    (h : (r.room_name != "Garage") = true) :
    total_living_sqft (if c then [r] else []) = if c then r.sqft else 0 := by
  split
  · exact tls_single r h
  · rfl

/-- An optional garage room never contributes to the conditioned area. -/
theorem tls_ite_garage (c : Prop) [Decidable c] (s f : ℤ) :
    total_living_sqft (if c then [⟨"Garage", s, f⟩] else []) = 0 := by
  split
  · exact tls_garage s f
  · rfl

/-- The secondary bedrooms contribute `(bedrooms − 1) × area`. -/
theorem tls_beds (rso : RSO) (m : ℚ) :
    total_living_sqft ((List.range' 1 (rso.bedrooms - 1).toNat).map (fun i : ℕ =>
        ⟨"Bedroom " ++ toString (i + 1), ratTrunc (150 * m),
         if rso.floors > 1 then min ((i : ℤ) + 1) rso.floors else 1⟩)) =
      (((rso.bedrooms - 1).toNat : ℤ)) * ratTrunc (150 * m) :=
  tls_range_map _ _ _ _ (fun _ => bedroom_ne _) (fun _ => rfl)

/-- The secondary bathrooms contribute `(⌊bathrooms⌋ − 1) × area`. -/
theorem tls_baths (rso : RSO) (m : ℚ) :
    total_living_sqft ((List.range' 1 (ratTrunc rso.bathrooms - 1).toNat).map (fun i : ℕ =>
        ⟨"Bathroom " ++ toString (i + 1), ratTrunc (65 * m),
         if rso.floors > 1 then max 1 (rso.floors - (i : ℤ) + 1) else 1⟩)) =
      (((ratTrunc rso.bathrooms - 1).toNat : ℤ)) * ratTrunc (65 * m) :=
  tls_range_map _ _ _ _ (fun _ => bathroom_ne _) (fun _ => rfl)

/-- The five common living areas contribute the sum of their areas. -/
theorem tls_commons (m : ℚ) :
    total_living_sqft
      [⟨"Kitchen", ratTrunc (200 * m), 1⟩,
       ⟨"Living Room", ratTrunc (280 * m), 1⟩,
       ⟨"Dining Room", ratTrunc (160 * m), 1⟩,
       ⟨"Laundry Room", ratTrunc (60 * m), 1⟩,
       ⟨"Foyer / Entry", ratTrunc (50 * m), 1⟩] =
      ratTrunc (200 * m) + ratTrunc (280 * m) + ratTrunc (160 * m)
        + ratTrunc (60 * m) + ratTrunc (50 * m) := by
  have hsplit :
      ([⟨"Kitchen", ratTrunc (200 * m), 1⟩,
        ⟨"Living Room", ratTrunc (280 * m), 1⟩,
        ⟨"Dining Room", ratTrunc (160 * m), 1⟩,
        ⟨"Laundry Room", ratTrunc (60 * m), 1⟩,
        ⟨"Foyer / Entry", ratTrunc (50 * m), 1⟩] : List RoomLayout) =
      [⟨"Kitchen", ratTrunc (200 * m), 1⟩] ++ ([⟨"Living Room", ratTrunc (280 * m), 1⟩]
        ++ ([⟨"Dining Room", ratTrunc (160 * m), 1⟩] ++ ([⟨"Laundry Room", ratTrunc (60 * m), 1⟩]
        ++ [⟨"Foyer / Entry", ratTrunc (50 * m), 1⟩]))) := rfl
  rw [hsplit, tls_append, tls_append, tls_append, tls_append,
    tls_single ⟨"Kitchen", ratTrunc (200 * m), 1⟩ rfl,
    tls_single ⟨"Living Room", ratTrunc (280 * m), 1⟩ rfl,
    tls_single ⟨"Dining Room", ratTrunc (160 * m), 1⟩ rfl,
    tls_single ⟨"Laundry Room", ratTrunc (60 * m), 1⟩ rfl,
    tls_single ⟨"Foyer / Entry", ratTrunc (50 * m), 1⟩ rfl]
  dsimp only
  ring

/-- Closed form of the conditioned area of `_build_rooms` before the
circulation allowance, as a function of the specification. -/
theorem tls_rooms_before (rso : RSO) (m : ℚ) :
    total_living_sqft (rooms_before rso m) =
      ratTrunc (220 * m)
      + (((rso.bedrooms - 1).toNat : ℤ)) * ratTrunc (150 * m)
      + ratTrunc (100 * m)
      + (((ratTrunc rso.bathrooms - 1).toNat : ℤ)) * ratTrunc (65 * m)
      + (if Int.fract rso.bathrooms ≥ 1/2 then ratTrunc (35 * m) else 0)
      + (ratTrunc (200 * m) + ratTrunc (280 * m) + ratTrunc (160 * m)
         + ratTrunc (60 * m) + ratTrunc (50 * m))
      + (if rso.outdoor_space then ratTrunc (200 * m) else 0)
      + ((rso.special_requirements.filter (fun s => s != "Garage")).length : ℤ)
          * ratTrunc (120 * m) := by
  simp only [rooms_before, tls_append]
  rw [tls_beds, tls_baths, tls_commons, tls_specials,
    tls_single ⟨"Primary Bedroom", ratTrunc (220 * m), rso.floors⟩ rfl,
    tls_single ⟨"Primary Bathroom", ratTrunc (100 * m), rso.floors⟩ rfl,
    tls_ite_single _ ⟨"Half Bath", ratTrunc (35 * m), 1⟩ rfl, tls_ite_garage,
    tls_ite_single _ ⟨"Covered Patio / Outdoor Living", ratTrunc (200 * m), 1⟩ rfl]
  dsimp only
  ring

/-- The living area of a generated room list is the conditioned area plus
the 8 % circulation allowance (truncated). -/
theorem tls_build (rso : RSO) (m : ℚ) :
    total_living_sqft (build_rooms rso m)
      = total_living_sqft (rooms_before rso m)
        + ratTrunc ((total_living_sqft (rooms_before rso m) : ℚ) * 0.08) := by
  simp only [build_rooms]
  rw [tls_append,
    tls_single ⟨"Hallways / Circulation",
      ratTrunc ((total_living_sqft (rooms_before rso m) : ℚ) * 0.08), 1⟩ rfl]

/-- Python `int()` agrees with the floor on non-negative values. -/
theorem ratTrunc_eq_floor (q : ℚ) (h : 0 ≤ q) : ratTrunc q = ⌊q⌋ := by
  unfold ratTrunc
  rw [Rat.floor_def]
  exact Int.tdiv_eq_ediv (Rat.num_nonneg.mpr h) (Int.natCast_nonneg _)

/-- Adding the truncated 8 % circulation allowance preserves strict
inequality of non-negative conditioned areas. -/
theorem tls_total_lt {a b : ℤ} (ha : 0 ≤ a) (hab : a < b) :
    a + ratTrunc ((a : ℚ) * 0.08) < b + ratTrunc ((b : ℚ) * 0.08) := by
  have hb : 0 ≤ b := le_of_lt (lt_of_le_of_lt ha hab)
  have h8 : (0 : ℚ) ≤ 0.08 := by norm_num
  have haq : (0 : ℚ) ≤ (a : ℚ) := by exact_mod_cast ha
  have hbq : (0 : ℚ) ≤ (b : ℚ) := by exact_mod_cast hb
  rw [ratTrunc_eq_floor _ (mul_nonneg haq h8), ratTrunc_eq_floor _ (mul_nonneg hbq h8)]
  have hfloor : ⌊(a : ℚ) * 0.08⌋ ≤ ⌊(b : ℚ) * 0.08⌋ := by
    apply Int.floor_le_floor
    apply mul_le_mul_of_nonneg_right _ h8
    exact_mod_cast le_of_lt hab
  omega

/-- The conditioned area at the efficient multiplier is non-negative. -/
theorem tls_pos_85 (rso : RSO) :
    0 ≤ total_living_sqft (rooms_before rso 0.85) := by
  rw [tls_rooms_before]
  rw [show ratTrunc (220 * (0.85 : ℚ)) = 187 from by with_unfolding_all decide,
    show ratTrunc (150 * (0.85 : ℚ)) = 127 from by with_unfolding_all decide,
    show ratTrunc (100 * (0.85 : ℚ)) = 85 from by with_unfolding_all decide,
    show ratTrunc (65 * (0.85 : ℚ)) = 55 from by with_unfolding_all decide,
    show ratTrunc (35 * (0.85 : ℚ)) = 29 from by with_unfolding_all decide,
    show ratTrunc (200 * (0.85 : ℚ)) = 170 from by with_unfolding_all decide,
    show ratTrunc (280 * (0.85 : ℚ)) = 238 from by with_unfolding_all decide,
    show ratTrunc (160 * (0.85 : ℚ)) = 136 from by with_unfolding_all decide,
    show ratTrunc (60 * (0.85 : ℚ)) = 51 from by with_unfolding_all decide,
    show ratTrunc (50 * (0.85 : ℚ)) = 42 from by with_unfolding_all decide,
    show ratTrunc (120 * (0.85 : ℚ)) = 102 from by with_unfolding_all decide]
  split <;> split <;> omega

/-- The conditioned area at multiplier 0.85 is strictly below the one at
multiplier 1.00, whatever the specification. -/
theorem tls_85_lt_100 (rso : RSO) :
    total_living_sqft (rooms_before rso 0.85) < total_living_sqft (rooms_before rso 1.00) := by
  rw [tls_rooms_before, tls_rooms_before]
  rw [show ratTrunc (220 * (0.85 : ℚ)) = 187 from by with_unfolding_all decide,
    show ratTrunc (150 * (0.85 : ℚ)) = 127 from by with_unfolding_all decide,
    show ratTrunc (100 * (0.85 : ℚ)) = 85 from by with_unfolding_all decide,
    show ratTrunc (65 * (0.85 : ℚ)) = 55 from by with_unfolding_all decide,
    show ratTrunc (35 * (0.85 : ℚ)) = 29 from by with_unfolding_all decide,
    show ratTrunc (200 * (0.85 : ℚ)) = 170 from by with_unfolding_all decide,
    show ratTrunc (280 * (0.85 : ℚ)) = 238 from by with_unfolding_all decide,
    show ratTrunc (160 * (0.85 : ℚ)) = 136 from by with_unfolding_all decide,
    show ratTrunc (60 * (0.85 : ℚ)) = 51 from by with_unfolding_all decide,
    show ratTrunc (50 * (0.85 : ℚ)) = 42 from by with_unfolding_all decide,
    show ratTrunc (120 * (0.85 : ℚ)) = 102 from by with_unfolding_all decide,
    show ratTrunc (220 * (1.00 : ℚ)) = 220 from by with_unfolding_all decide,
    show ratTrunc (150 * (1.00 : ℚ)) = 150 from by with_unfolding_all decide,
    show ratTrunc (100 * (1.00 : ℚ)) = 100 from by with_unfolding_all decide,
    show ratTrunc (65 * (1.00 : ℚ)) = 65 from by with_unfolding_all decide,
    show ratTrunc (35 * (1.00 : ℚ)) = 35 from by with_unfolding_all decide,
    show ratTrunc (200 * (1.00 : ℚ)) = 200 from by with_unfolding_all decide,
    show ratTrunc (280 * (1.00 : ℚ)) = 280 from by with_unfolding_all decide,
    show ratTrunc (160 * (1.00 : ℚ)) = 160 from by with_unfolding_all decide,
    show ratTrunc (60 * (1.00 : ℚ)) = 60 from by with_unfolding_all decide,
    show ratTrunc (50 * (1.00 : ℚ)) = 50 from by with_unfolding_all decide,
    show ratTrunc (120 * (1.00 : ℚ)) = 120 from by with_unfolding_all decide]
  split <;> split <;> omega

/-- The conditioned area at multiplier 1.00 is strictly below the one at
multiplier 1.20, whatever the specification. -/
theorem tls_100_lt_120 (rso : RSO) :
    total_living_sqft (rooms_before rso 1.00) < total_living_sqft (rooms_before rso 1.20) := by
  rw [tls_rooms_before, tls_rooms_before]
  rw [show ratTrunc (220 * (1.00 : ℚ)) = 220 from by with_unfolding_all decide,
    show ratTrunc (150 * (1.00 : ℚ)) = 150 from by with_unfolding_all decide,
    show ratTrunc (100 * (1.00 : ℚ)) = 100 from by with_unfolding_all decide,
    show ratTrunc (65 * (1.00 : ℚ)) = 65 from by with_unfolding_all decide,
    show ratTrunc (35 * (1.00 : ℚ)) = 35 from by with_unfolding_all decide,
    show ratTrunc (200 * (1.00 : ℚ)) = 200 from by with_unfolding_all decide,
    show ratTrunc (280 * (1.00 : ℚ)) = 280 from by with_unfolding_all decide,
    show ratTrunc (160 * (1.00 : ℚ)) = 160 from by with_unfolding_all decide,
    show ratTrunc (60 * (1.00 : ℚ)) = 60 from by with_unfolding_all decide,
    show ratTrunc (50 * (1.00 : ℚ)) = 50 from by with_unfolding_all decide,
    show ratTrunc (120 * (1.00 : ℚ)) = 120 from by with_unfolding_all decide,
    show ratTrunc (220 * (1.20 : ℚ)) = 264 from by with_unfolding_all decide,
    show ratTrunc (150 * (1.20 : ℚ)) = 180 from by with_unfolding_all decide,
    show ratTrunc (100 * (1.20 : ℚ)) = 120 from by with_unfolding_all decide,
    show ratTrunc (65 * (1.20 : ℚ)) = 78 from by with_unfolding_all decide,
    show ratTrunc (35 * (1.20 : ℚ)) = 42 from by with_unfolding_all decide,
    show ratTrunc (200 * (1.20 : ℚ)) = 240 from by with_unfolding_all decide,
    show ratTrunc (280 * (1.20 : ℚ)) = 336 from by with_unfolding_all decide,
    show ratTrunc (160 * (1.20 : ℚ)) = 192 from by with_unfolding_all decide,
    show ratTrunc (60 * (1.20 : ℚ)) = 72 from by with_unfolding_all decide,
    show ratTrunc (50 * (1.20 : ℚ)) = 60 from by with_unfolding_all decide,
    show ratTrunc (120 * (1.20 : ℚ)) = 144 from by with_unfolding_all decide]
  split <;> split <;> omega

/-- C3: for every valid specification, `generate_plans` returns exactly
three options titled "Efficient Living", "Spacious Comfort",
"Premium Design" in that order, with strictly increasing `total_sqft`. -/
theorem C3_three_increasing_options (ids : ℕ → String) (rso : RSO)
    (_hv : rso.validB = true) :
    (generate_plans ids rso).map (fun o => o.title)
        = ["Efficient Living", "Spacious Comfort", "Premium Design"] ∧
    ∃ a b c, generate_plans ids rso = [a, b, c]
      ∧ a.total_sqft < b.total_sqft ∧ b.total_sqft < c.total_sqft := by
  refine ⟨rfl, ?_⟩
  refine ⟨_, _, _, rfl, ?_, ?_⟩
  · show total_living_sqft (build_rooms rso 0.85) < total_living_sqft (build_rooms rso 1.00)
    rw [tls_build, tls_build]
    exact tls_total_lt (tls_pos_85 rso) (tls_85_lt_100 rso)
  · show total_living_sqft (build_rooms rso 1.00) < total_living_sqft (build_rooms rso 1.20)
    rw [tls_build, tls_build]
    have h100 : 0 ≤ total_living_sqft (rooms_before rso 1.00) :=
      le_of_lt (lt_of_le_of_lt (tls_pos_85 rso) (tls_85_lt_100 rso))
    exact tls_total_lt h100 (tls_100_lt_120 rso)

/-- C3 (witness): instantiated on the default specification. -/
theorem C3_witness :
    (generate_plans ids0 rso_empty).map (fun o => o.title)
        = ["Efficient Living", "Spacious Comfort", "Premium Design"] ∧
    ∃ a b c, generate_plans ids0 rso_empty = [a, b, c]
      ∧ a.total_sqft < b.total_sqft ∧ b.total_sqft < c.total_sqft :=
  C3_three_increasing_options ids0 rso_empty (by with_unfolding_all decide)

end VibeSpec
